import Mathlib

/-!
# template-video-player: decoder pipeline

A shallow embedding of `src/decoder/video_reader.cpp` and
`src/decoder/audio_demux_decode.cpp`.

The native libraries (libavformat, libavcodec, libavutil, libswscale, stdio)
are not part of the repository.  Their behaviour is a parameter of the model:

* what the container and the decoder answer is a finite trace of return
  values, consumed in call order (`AVFormatContext.reads`,
  `AVCodecContext.sends`, `AVCodecContext.recvs`); a call made after the trace
  is used up answers `AVERROR_EOF` (for `av_read_frame`: the trace is
  used up when the loop meets the empty list);
* the pure library functions are the fields of `Lib`.

Every loop of the source is a structural recursion over one of these traces,
so every operation of the model is total.  A run that the source ends with
`exit(1)`, or in which it dereferences a null pointer or uses a closed stream,
ends in a `Fault`.

The construction and destruction of a `VideoReader` are embedded on the
handles of its native resources (`Handles`): which pointers are null, live or
dangling, and how often each resource has been released (`Releases`).

The file has the embedding first, then reference definitions written from the
specification (`spec_submit`, `spec_drain`, `spec_session_frames`,
`selected_packets`) and sample inputs, then the theorems.
-/

namespace VideoPlayer

/-! ## Library constants and data -/

/-- The value of `AVERROR_EOF`, that is `-MKTAG('E','O','F',' ')`. -/
def AVERROR_EOF : Int := -541478725

/-- The value of `EAGAIN` in `errno.h`. -/
def EAGAIN : Int := 11

/-- The macro `AVERROR(e)`, which negates a POSIX error code. -/
def AVERROR (e : Int) : Int := -e

/-- A value of type `int` after an arithmetic operation: two's complement
wrap to 32 bits. -/
def wrap32 (x : Int) : Int := (x + 2147483648) % 4294967296 - 2147483648

/-- The conversion of an `int` to `size_t` (64 bits). -/
def to_size_t (x : Int) : Nat := (x % 18446744073709551616).toNat

/-- A demuxed packet: only the stream index is inspected by the code. -/
structure AVPacket where
  stream_index : Int
deriving DecidableEq, Repr

/-- The packet slot after `av_packet_unref`. -/
def AVPacket.blank : AVPacket := { stream_index := 0 }

/-- A decoded frame slot: the fields the code reads.  `extended_data` lists
the data planes, each with the bytes it points to. -/
structure AVFrame where
  pts : Int
  nb_samples : Int
  format : Int
  height : Int
  extended_data : List (List Nat)
deriving DecidableEq, Repr

/-- The bytes at `extended_data[i]`; an absent plane has none. -/
def AVFrame.plane (frame : AVFrame) (i : Nat) : List Nat := frame.extended_data.getD i []

/-- The frame slot as `av_frame_alloc` / `av_frame_unref` leave it
(`pts` is `AV_NOPTS_VALUE`, `format` is `-1`). -/
def AVFrame.blank : AVFrame :=
  { pts := -9223372036854775808, nb_samples := 0, format := -1, height := 0,
    extended_data := [] }

/-- One answer of `av_read_frame`: the return code and the packet it filled. -/
structure ReadResult where
  ret : Int
  pkt : AVPacket
deriving DecidableEq, Repr

/-- One answer of `avcodec_receive_frame`: the return code and the content of
the frame slot after the call. -/
structure RecvResult where
  ret : Int
  frame : AVFrame
deriving DecidableEq, Repr

/-- The container as the code sees it: the answers of the coming
`av_read_frame` calls. -/
structure AVFormatContext where
  reads : List ReadResult
deriving DecidableEq, Repr

/-- The decoder as the code sees it: the answers of the coming
`avcodec_send_packet` and `avcodec_receive_frame` calls, and the fields the
code reads (`pix_fmt`, `sample_fmt`, `sample_rate`, `ch_layout.nb_channels`,
and whether `codec->type` is `AVMEDIA_TYPE_AUDIO`) with the value they hold
at the moment the code reads them. -/
structure AVCodecContext where
  sends : List Int
  recvs : List RecvResult
  pix_fmt : Int
  sample_fmt : Int
  sample_rate : Int
  nb_channels : Int
  codec_is_audio : Bool
deriving DecidableEq, Repr

/-- A scaler context: the arguments `sws_getContext` was called with. -/
structure SwsContext where
  srcW : Int
  srcH : Int
  srcFormat : Int
  dstW : Int
  dstH : Int
  dstFormat : Int
deriving DecidableEq, Repr

/-- The pure functions of the native libraries, the byte order of the host,
which the macro `AV_NE` tests, and the code of the pixel format
`AV_PIX_FMT_RGB0`. -/
structure Lib where
  bigEndian : Bool
  AV_PIX_FMT_RGB0 : Int
  av_get_bytes_per_sample : Int → Int
  av_sample_fmt_is_planar : Int → Bool
  av_get_packed_sample_fmt : Int → Int
  av_seek_frame : AVFormatContext → Int → Int → AVFormatContext
  sws_getContext_ok : SwsContext → Bool
  sws_scale : SwsContext → AVFrame → Int → List Nat → List Nat

/-- The call `avcodec_send_packet(dec, pkt)`: the next answer of the decoder. -/
def avcodec_send_packet (dec : AVCodecContext) : Int × AVCodecContext :=
  match dec.sends with
  | [] => (AVERROR_EOF, dec)
  | r :: rest => (r, { dec with sends := rest })

/-- The call `avcodec_receive_frame(dec, frame)`: the next answer of the
decoder and the frame slot it leaves. -/
def avcodec_receive_frame (dec : AVCodecContext) : Int × AVFrame × AVCodecContext :=
  match dec.recvs with
  | [] => (AVERROR_EOF, AVFrame.blank, dec)
  | r :: rest => (r.ret, r.frame, { dec with recvs := rest })

/-! ## `video_reader.cpp` -/

def AV_PIX_FMT_YUV420P : Int := 0
def AV_PIX_FMT_YUV422P : Int := 4
def AV_PIX_FMT_YUV444P : Int := 5
def AV_PIX_FMT_YUVJ420P : Int := 12
def AV_PIX_FMT_YUVJ422P : Int := 13
def AV_PIX_FMT_YUVJ444P : Int := 14
def AV_PIX_FMT_YUV440P : Int := 31
def AV_PIX_FMT_YUVJ440P : Int := 32

/-- The function `correct_for_deprecated_pixel_format` of
`video_reader.cpp`. -/
def correct_for_deprecated_pixel_format (pix_fmt : Int) : Int :=
  if pix_fmt = AV_PIX_FMT_YUVJ420P then AV_PIX_FMT_YUV420P
  else if pix_fmt = AV_PIX_FMT_YUVJ422P then AV_PIX_FMT_YUV422P
  else if pix_fmt = AV_PIX_FMT_YUVJ444P then AV_PIX_FMT_YUV444P
  else if pix_fmt = AV_PIX_FMT_YUVJ440P then AV_PIX_FMT_YUV440P
  else pix_fmt

/-- The member `videoReaderState` of a constructed reader. -/
structure VideoReaderState where
  width : Int
  height : Int
  av_format_ctx : AVFormatContext
  av_codec_ctx : AVCodecContext
  video_stream_index : Int
  av_frame : AVFrame
  av_packet : AVPacket
  sws_scaler_ctx : Option SwsContext
deriving DecidableEq, Repr

/-- A constructed `VideoReader`: its state, the frame buffer and the slot
`*pts`. -/
structure VideoReader where
  videoReaderState : VideoReaderState
  frame_buffer : List Nat
  pts : Int
deriving DecidableEq, Repr

/-- How the `while (av_read_frame(...) >= 0)` loop of
`video_reader_read_frame` and `video_reader_seek_frame` was left. -/
inductive LoopExit where
  /-- One of the two `return false` statements inside the loop. -/
  | returned_false
  /-- The statement `break` after a frame was received. -/
  | broke
  /-- The loop condition failed: `av_read_frame` answered a negative value. -/
  | condition_failed
deriving DecidableEq, Repr

/-- The state the decode loop leaves behind. -/
structure LoopState where
  exit : LoopExit
  av_format_ctx : AVFormatContext
  av_codec_ctx : AVCodecContext
  av_frame : AVFrame
  av_packet : AVPacket
deriving DecidableEq, Repr

/-- The loop at lines 38-61 of `video_reader.cpp`, which lines 99-122 repeat
word for word, by recursion over the answers of `av_read_frame`. -/
def decode_loop (video_stream_index : Int) :
    List ReadResult → AVCodecContext → AVFrame → AVPacket → LoopState
  | [], dec, frame, pkt =>
      { exit := .condition_failed, av_format_ctx := ⟨[]⟩, av_codec_ctx := dec,
        av_frame := frame, av_packet := pkt }
  | r :: rest, dec, frame, _ =>
      if r.ret < 0 then
        { exit := .condition_failed, av_format_ctx := ⟨rest⟩, av_codec_ctx := dec,
          av_frame := frame, av_packet := r.pkt }
      else if r.pkt.stream_index ≠ video_stream_index then
        -- av_packet_unref(av_packet); continue;
        decode_loop video_stream_index rest dec frame AVPacket.blank
      else
        let s := avcodec_send_packet dec
        if s.1 < 0 then
          { exit := .returned_false, av_format_ctx := ⟨rest⟩, av_codec_ctx := s.2,
            av_frame := frame, av_packet := r.pkt }
        else
          let v := avcodec_receive_frame s.2
          if v.1 = AVERROR EAGAIN ∨ v.1 = AVERROR_EOF then
            -- av_packet_unref(av_packet); continue;
            decode_loop video_stream_index rest v.2.2 v.2.1 AVPacket.blank
          else if v.1 < 0 then
            { exit := .returned_false, av_format_ctx := ⟨rest⟩, av_codec_ctx := v.2.2,
              av_frame := v.2.1, av_packet := r.pkt }
          else
            -- av_packet_unref(av_packet); break;
            { exit := .broke, av_format_ctx := ⟨rest⟩, av_codec_ctx := v.2.2,
              av_frame := v.2.1, av_packet := AVPacket.blank }

/-- The reader after the decode loop: the container, decoder, frame slot and
packet slot are the ones the loop left. -/
def VideoReader.afterLoop (vr : VideoReader) (l : LoopState) : VideoReader :=
  { vr with videoReaderState :=
      { vr.videoReaderState with
        av_format_ctx := l.av_format_ctx, av_codec_ctx := l.av_codec_ctx,
        av_frame := l.av_frame, av_packet := l.av_packet } }

/-- The method `VideoReader::video_reader_read_frame`. -/
def video_reader_read_frame (lib : Lib) (vr : VideoReader) : Bool × VideoReader :=
  let st := vr.videoReaderState
  let l := decode_loop st.video_stream_index st.av_format_ctx.reads st.av_codec_ctx
    st.av_frame st.av_packet
  let vr1 := vr.afterLoop l
  if l.exit = .returned_false then (false, vr1)
  else
    -- *pts = av_frame->pts;
    let vr2 := { vr1 with pts := l.av_frame.pts }
    -- if (!sws_scaler_ctx) sws_scaler_ctx = sws_getContext(...)
    let ctx : Option SwsContext :=
      match st.sws_scaler_ctx with
      | some c => some c
      | none =>
          let c : SwsContext :=
            { srcW := st.width, srcH := st.height,
              srcFormat := correct_for_deprecated_pixel_format l.av_codec_ctx.pix_fmt,
              dstW := st.width, dstH := st.height, dstFormat := lib.AV_PIX_FMT_RGB0 }
          if lib.sws_getContext_ok c then some c else none
    match ctx with
    | none => (false, vr2)
    | some c =>
        -- int dest_linesize[4] = { width * 4, 0, 0, 0 };
        let dest_linesize := wrap32 (st.width * 4)
        (true,
          { vr2 with
            videoReaderState := { vr2.videoReaderState with sws_scaler_ctx := some c }
            frame_buffer := lib.sws_scale c l.av_frame dest_linesize vr2.frame_buffer })

/-- The method `VideoReader::video_reader_seek_frame`. -/
def video_reader_seek_frame (lib : Lib) (vr : VideoReader) (ts : Int) : Bool × VideoReader :=
  let st := vr.videoReaderState
  let fc := lib.av_seek_frame st.av_format_ctx st.video_stream_index ts
  let l := decode_loop st.video_stream_index fc.reads st.av_codec_ctx st.av_frame st.av_packet
  let vr1 := vr.afterLoop l
  if l.exit = .returned_false then (false, vr1)
  else (true, { vr1 with pts := ts })

/-! ## `audio_demux_decode.cpp` -/

def AV_SAMPLE_FMT_NONE : Int := -1
def AV_SAMPLE_FMT_U8 : Int := 0
def AV_SAMPLE_FMT_S16 : Int := 1
def AV_SAMPLE_FMT_S32 : Int := 2
def AV_SAMPLE_FMT_FLT : Int := 3
def AV_SAMPLE_FMT_DBL : Int := 4
def AV_SAMPLE_FMT_U8P : Int := 5
def AV_SAMPLE_FMT_S16P : Int := 6
def AV_SAMPLE_FMT_S32P : Int := 7
def AV_SAMPLE_FMT_FLTP : Int := 8
def AV_SAMPLE_FMT_DBLP : Int := 9
def AV_SAMPLE_FMT_S64 : Int := 10
def AV_SAMPLE_FMT_S64P : Int := 11

/-- The value of `EINVAL` in `errno.h`. -/
def EINVAL : Int := 22

/-- The value of `ENOMEM` in `errno.h`. -/
def ENOMEM : Int := 12

/-- The macro `AV_NE(be, le)`. -/
def AV_NE {α : Type} (lib : Lib) (be le : α) : α := if lib.bigEndian then be else le

/-- An entry of the table `sample_fmt_entries`. -/
structure sample_fmt_entry where
  sample_fmt : Int
  fmt_be : String
  fmt_le : String
deriving DecidableEq, Repr

/-- The table inside `get_format_from_sample_fmt`. -/
def sample_fmt_entries : List sample_fmt_entry :=
  [ ⟨AV_SAMPLE_FMT_U8, "u8", "u8"⟩,
    ⟨AV_SAMPLE_FMT_S16, "s16be", "s16le"⟩,
    ⟨AV_SAMPLE_FMT_S32, "s32be", "s32le"⟩,
    ⟨AV_SAMPLE_FMT_FLT, "f32be", "f32le"⟩,
    ⟨AV_SAMPLE_FMT_DBL, "f64be", "f64le"⟩ ]

/-- The function `get_format_from_sample_fmt`: the return value and the
string left in `*fmt` (`none` is `NULL`).  The `for` loop returns at the first
entry whose `sample_fmt` matches. -/
def get_format_from_sample_fmt (lib : Lib) (sample_fmt : Int) : Int × Option String :=
  match sample_fmt_entries.find? (fun entry => decide (sample_fmt = entry.sample_fmt)) with
  | some entry => (0, some (AV_NE lib entry.fmt_be entry.fmt_le))
  | none => (-1, none)

/-- The members of an `AudioDecoder` object. -/
structure AudioDecoder where
  m_format : String
  m_sample_rate : Int
  m_channels : Int
deriving DecidableEq, Repr

def AudioDecoder.getFormat (a : AudioDecoder) : String := a.m_format
def AudioDecoder.getSampleRate (a : AudioDecoder) : Int := a.m_sample_rate
def AudioDecoder.getNumChannels (a : AudioDecoder) : Int := a.m_channels

/-- The pointer `FILE *audio_dst_file`: `NULL`, an open stream, or a stream
that `fclose` has closed (the variable is not reset after `fclose`). -/
inductive FilePtr where
  | null
  | opened
  | closed
deriving DecidableEq, Repr

/-- The module-level variables of `audio_demux_decode.cpp`, and the bytes of
the destination file once this process has opened it (`dst`).
`audio_stream` is whether the pointer is non-`NULL`. -/
structure Module where
  fmt_ctx : Option AVFormatContext
  audio_dec_ctx : Option AVCodecContext
  audio_stream : Bool
  audio_dst_file : FilePtr
  audio_stream_idx : Int
  frame : Option AVFrame
  pkt : Option AVPacket
  audio_frame_count : Int
  dst : Option (List Nat)
deriving DecidableEq, Repr

/-- The initial values of the module-level variables (lines 34-45). -/
def Module.init : Module :=
  { fmt_ctx := none, audio_dec_ctx := none, audio_stream := false, audio_dst_file := .null,
    audio_stream_idx := -1, frame := none, pkt := none, audio_frame_count := 0, dst := none }

/-- What the outside world answers during one call of `demuxDecode`: the
return values of the opening calls, the container and the decoder they
yield, and whether `fopen`, `av_frame_alloc` and `av_packet_alloc`
succeed. -/
structure AudioSource where
  avformat_open_input : Int
  avformat_find_stream_info : Int
  fmt_ctx : AVFormatContext
  av_find_best_stream : Int
  avcodec_find_decoder : Bool
  avcodec_alloc_context3 : Option AVCodecContext
  avcodec_parameters_to_context : Int
  avcodec_open2 : Int
  fopen : Bool
  av_frame_alloc : Bool
  av_packet_alloc : Bool
deriving DecidableEq, Repr

/-- A way a call can end without returning. -/
inductive Fault where
  /-- The call `exit(code)`. -/
  | exited (code : Int)
  /-- Undefined behaviour: a null pointer is dereferenced, or a closed stream
  is written or closed again. -/
  | undefined
deriving DecidableEq, Repr

/-- The number of bytes `output_audio_frame` asks `fwrite` to write. -/
def unpadded_linesize (lib : Lib) (frame : AVFrame) : Nat :=
  to_size_t (wrap32 (frame.nb_samples * lib.av_get_bytes_per_sample frame.format))

/-- The function `output_audio_frame`.  `fwrite` appends the requested bytes
of plane 0 to the open destination stream. -/
def output_audio_frame (lib : Lib) (m : Module) (frame : AVFrame) : Except Fault (Int × Module) :=
  let m1 := { m with audio_frame_count := wrap32 (m.audio_frame_count + 1) }
  match m.audio_dec_ctx, m.audio_dst_file, m.dst with
  | some _, .opened, some bytes =>
      .ok (0, { m1 with dst := some (bytes ++ (frame.plane 0).take (unpadded_linesize lib frame)) })
  | _, _, _ => .error .undefined

/-- The loop `while (ret >= 0)` of `decode_packet`, by recursion over the
answers of `avcodec_receive_frame`; the result carries the answers not yet
consumed. -/
def receive_frames (lib : Lib) (codec_is_audio : Bool) :
    List RecvResult → Module → Except Fault (Int × List RecvResult × Module)
  | [], m => .ok (0, [], { m with frame := some AVFrame.blank })
  | r :: rest, m =>
      let m1 := { m with frame := some r.frame }
      if r.ret < 0 then
        if r.ret = AVERROR_EOF ∨ r.ret = AVERROR EAGAIN then .ok (0, rest, m1)
        else .ok (r.ret, rest, m1)
      else if codec_is_audio then
        match output_audio_frame lib m1 r.frame with
        | .error e => .error e
        | .ok (ret, m2) =>
            if ret < 0 then .ok (ret, rest, m2) else receive_frames lib codec_is_audio rest m2
      else
        -- the dangling `else` governs `av_frame_unref(frame)`; `ret` keeps the
        -- non-negative answer of `avcodec_receive_frame`
        receive_frames lib codec_is_audio rest { m1 with frame := some AVFrame.blank }

/-- The function `decode_packet(audio_dec_ctx, pkt)`; both call sites pass the
module-level decoder. -/
def decode_packet (lib : Lib) (m : Module) : Except Fault (Int × Module) :=
  match m.audio_dec_ctx with
  | none => .error .undefined
  | some dec =>
      let s := avcodec_send_packet dec
      if s.1 < 0 then .ok (s.1, { m with audio_dec_ctx := some s.2 })
      else
        match receive_frames lib dec.codec_is_audio s.2.recvs
            { m with audio_dec_ctx := some s.2 } with
        | .error e => .error e
        | .ok (ret, rest, m1) =>
            .ok (ret, { m1 with audio_dec_ctx := some { s.2 with recvs := rest } })

/-- The loop `while (av_read_frame(fmt_ctx, pkt) >= 0)` of `demuxDecode`, by
recursion over the answers of `av_read_frame`; `ret` is the local variable of
`demuxDecode`. -/
def read_frames (lib : Lib) :
    List ReadResult → Int → Module → Except Fault (Int × List ReadResult × Module)
  | [], ret, m => .ok (ret, [], m)
  | r :: rest, ret, m =>
      if r.ret < 0 then .ok (ret, rest, m)
      else if r.pkt.stream_index = m.audio_stream_idx then
        match decode_packet lib { m with pkt := some r.pkt } with
        | .error e => .error e
        | .ok (ret1, m1) =>
            let m2 := { m1 with pkt := some AVPacket.blank }
            if ret1 < 0 then .ok (ret1, rest, m2) else read_frames lib rest ret1 m2
      else
        let m2 := { m with pkt := some AVPacket.blank }
        if ret < 0 then .ok (ret, rest, m2) else read_frames lib rest ret m2

/-- The function `open_codec_context(&audio_stream_idx, &audio_dec_ctx, ...)`:
the return value and the two output variables. -/
def open_codec_context (src : AudioSource) (stream_idx : Int)
    (dec_ctx : Option AVCodecContext) : Int × Int × Option AVCodecContext :=
  let ret := src.av_find_best_stream
  if ret < 0 then (ret, stream_idx, dec_ctx)
  else if !src.avcodec_find_decoder then (AVERROR EINVAL, stream_idx, dec_ctx)
  else
    match src.avcodec_alloc_context3 with
    | none => (AVERROR ENOMEM, stream_idx, none)
    | some d =>
        if src.avcodec_parameters_to_context < 0 then
          (src.avcodec_parameters_to_context, stream_idx, some d)
        else if src.avcodec_open2 < 0 then (src.avcodec_open2, stream_idx, some d)
        else (0, ret, some d)

/-- The code after the label `end:` of `demuxDecode`. -/
def demuxDecode_end (ret : Int) (m : Module) (self : AudioDecoder) :
    Except Fault (Int × Module × AudioDecoder) :=
  let m1 := { m with audio_dec_ctx := none, fmt_ctx := none, pkt := none, frame := none }
  match m.audio_dst_file with
  | .null => .ok (if ret < 0 then 1 else 0, m1, self)
  | .opened => .ok (if ret < 0 then 1 else 0, { m1 with audio_dst_file := .closed }, self)
  | .closed => .error .undefined

/-- Lines 279-305 of `demuxDecode`: the metadata block, then `end:`. -/
def demuxDecode_metadata (lib : Lib) (ret : Int) (m : Module) (self : AudioDecoder) :
    Except Fault (Int × Module × AudioDecoder) :=
  if m.audio_stream then
    match m.audio_dec_ctx with
    | none => .error .undefined
    | some dec =>
        let planar := lib.av_sample_fmt_is_planar dec.sample_fmt
        let sfmt := if planar then lib.av_get_packed_sample_fmt dec.sample_fmt else dec.sample_fmt
        let n_channels := if planar then 1 else dec.nb_channels
        let g := get_format_from_sample_fmt lib sfmt
        if g.1 < 0 then demuxDecode_end g.1 m self
        else
          match g.2 with
          | none => .error .undefined
          | some fmt =>
              demuxDecode_end g.1 m
                { m_format := fmt, m_sample_rate := dec.sample_rate, m_channels := n_channels }
  else demuxDecode_end ret m self

/-- The method `AudioDecoder::demuxDecode`: the return value, the
module-level state it leaves and the object. -/
def demuxDecode (lib : Lib) (src : AudioSource) (m : Module) (self : AudioDecoder) :
    Except Fault (Int × Module × AudioDecoder) :=
  if src.avformat_open_input < 0 then .error (.exited 1)
  else if src.avformat_find_stream_info < 0 then .error (.exited 1)
  else
    let m0 := { m with fmt_ctx := some src.fmt_ctx }
    let o := open_codec_context src m0.audio_stream_idx m0.audio_dec_ctx
    let m1 := { m0 with audio_stream_idx := o.2.1, audio_dec_ctx := o.2.2 }
    if o.1 ≥ 0 ∧ src.fopen = false then
      -- lines 222-228: `audio_stream` is set, `fopen` answers `NULL`, `ret = 1; goto end`
      demuxDecode_end 1 { m1 with audio_stream := true, audio_dst_file := .null } self
    else
      let m2 :=
        if o.1 ≥ 0 then
          { m1 with audio_stream := true, audio_dst_file := .opened, dst := some [] }
        else m1
      if m2.audio_stream = false then demuxDecode_end 1 m2 self
      else if src.av_frame_alloc = false then
        demuxDecode_end (AVERROR ENOMEM) { m2 with frame := none } self
      else if src.av_packet_alloc = false then
        demuxDecode_end (AVERROR ENOMEM) { m2 with frame := some AVFrame.blank, pkt := none } self
      else
        let m3 := { m2 with frame := some AVFrame.blank, pkt := some AVPacket.blank }
        match read_frames lib src.fmt_ctx.reads 0 m3 with
        | .error e => .error e
        | .ok (ret, rest, m4) =>
            let m5 := { m4 with fmt_ctx := some ⟨rest⟩ }
            -- flush the decoders
            let flushed : Except Fault Module :=
              match m5.audio_dec_ctx with
              | none => .ok m5
              | some _ =>
                  match decode_packet lib m5 with
                  | .error e => .error e
                  | .ok (_, m6) => .ok m6
            match flushed with
            | .error e => .error e
            | .ok m6 => demuxDecode_metadata lib ret m6 self

/-- A little-endian host with the sample-format table of
`libavutil/samplefmt.c`; seeking leaves the container as it is and the
scaler leaves the buffer as it is. -/
def hostLib : Lib :=
  { bigEndian := false
    AV_PIX_FMT_RGB0 := 119
    av_get_bytes_per_sample := fun f =>
      if f = AV_SAMPLE_FMT_U8 ∨ f = AV_SAMPLE_FMT_U8P then 1
      else if f = AV_SAMPLE_FMT_S16 ∨ f = AV_SAMPLE_FMT_S16P then 2
      else if f = AV_SAMPLE_FMT_S32 ∨ f = AV_SAMPLE_FMT_S32P ∨ f = AV_SAMPLE_FMT_FLT ∨
          f = AV_SAMPLE_FMT_FLTP then 4
      else if f = AV_SAMPLE_FMT_DBL ∨ f = AV_SAMPLE_FMT_DBLP ∨ f = AV_SAMPLE_FMT_S64 ∨
          f = AV_SAMPLE_FMT_S64P then 8
      else 0
    av_sample_fmt_is_planar := fun f =>
      decide (f = AV_SAMPLE_FMT_U8P ∨ f = AV_SAMPLE_FMT_S16P ∨ f = AV_SAMPLE_FMT_S32P ∨
        f = AV_SAMPLE_FMT_FLTP ∨ f = AV_SAMPLE_FMT_DBLP ∨ f = AV_SAMPLE_FMT_S64P)
    av_get_packed_sample_fmt := fun f =>
      if f < 0 ∨ AV_SAMPLE_FMT_S64P < f then AV_SAMPLE_FMT_NONE
      else if f = AV_SAMPLE_FMT_S64P then AV_SAMPLE_FMT_S64
      else if AV_SAMPLE_FMT_U8P ≤ f ∧ f ≤ AV_SAMPLE_FMT_DBLP then f - AV_SAMPLE_FMT_U8P
      else f
    av_seek_frame := fun ctx _ _ => ctx
    sws_getContext_ok := fun _ => true
    sws_scale := fun _ _ _ buf => buf }

/-! ## Reference definitions and sample inputs -/

/-- The format strings the session may report (section 3 of the
specification). -/
def vocabulary : List String :=
  ["u8", "s16be", "s16le", "s32be", "s32le", "f32be", "f32le", "f64be", "f64le"]

/-- The suffix of a format string of more than one byte per sample: "be" on a
big-endian host, "le" on a little-endian one. -/
def endian_suffix (lib : Lib) : String := if lib.bigEndian then "be" else "le"

/-- One of the five packed sample formats U8, S16, S32, FLT, DBL. -/
def supported_sample_fmt (f : Int) : Prop :=
  f = AV_SAMPLE_FMT_U8 ∨ f = AV_SAMPLE_FMT_S16 ∨ f = AV_SAMPLE_FMT_S32 ∨
    f = AV_SAMPLE_FMT_FLT ∨ f = AV_SAMPLE_FMT_DBL

instance (f : Int) : Decidable (supported_sample_fmt f) := by
  unfold supported_sample_fmt; infer_instance

/-- The sample format after a planar format is replaced by its packed
equivalent. -/
def packed_equivalent (lib : Lib) (f : Int) : Int :=
  if lib.av_sample_fmt_is_planar f then lib.av_get_packed_sample_fmt f else f

/-- Every opening step of `demuxDecode` succeeds: the input opens, stream
information is found, `open_codec_context` finds and opens an audio decoder,
the destination opens, and the frame and packet slots are allocated. -/
def AudioSource.opens (src : AudioSource) : Prop :=
  0 ≤ src.avformat_open_input ∧ 0 ≤ src.avformat_find_stream_info ∧
  0 ≤ src.av_find_best_stream ∧ src.avcodec_find_decoder = true ∧
  src.avcodec_alloc_context3.isSome = true ∧ 0 ≤ src.avcodec_parameters_to_context ∧
  0 ≤ src.avcodec_open2 ∧ src.fopen = true ∧ src.av_frame_alloc = true ∧
  src.av_packet_alloc = true

instance (src : AudioSource) : Decidable src.opens := by
  unfold AudioSource.opens; infer_instance

/-- A frame as a decoder hands it over: the sample count is not negative and
plane 0 spans `nb_samples * bytes_per_sample` bytes, a size that fits `int`
(as `linesize[0]` does). -/
def AVFrame.well_formed (lib : Lib) (frame : AVFrame) : Prop :=
  0 ≤ frame.nb_samples * lib.av_get_bytes_per_sample frame.format ∧
  frame.nb_samples * lib.av_get_bytes_per_sample frame.format < 2147483648 ∧
  (frame.nb_samples * lib.av_get_bytes_per_sample frame.format).toNat ≤ (frame.plane 0).length

instance (lib : Lib) (frame : AVFrame) : Decidable (frame.well_formed lib) := by
  unfold AVFrame.well_formed; infer_instance

/-- The bytes of a frame the specification sends to the destination: the
first `sample_count * bytes_per_sample_for_format` bytes of the first data
plane. -/
def first_plane_head (lib : Lib) (frame : AVFrame) : List Nat :=
  (frame.plane 0).take (frame.nb_samples * lib.av_get_bytes_per_sample frame.format).toNat

/-- The frames a decoder yields up to its first negative answer. -/
def frames_yielded : List RecvResult → List AVFrame
  | [] => []
  | r :: rest => if r.ret < 0 then [] else r.frame :: frames_yielded rest

/-- The answers of the decoder that follow its first negative answer. -/
def recvs_left : List RecvResult → List RecvResult
  | [] => []
  | r :: rest => if r.ret < 0 then rest else recvs_left rest

/-- Whether the first negative answer of the decoder is a fatal one, neither
"need more input" nor "end of stream". -/
def recvs_fatal : List RecvResult → Bool
  | [] => false
  | r :: rest =>
      if r.ret < 0 then !(decide (r.ret = AVERROR_EOF) || decide (r.ret = AVERROR EAGAIN))
      else recvs_fatal rest

/-- What steps 2 and 3 of the decode loop primitive yield for one
submission. -/
structure Submission where
  frames : List AVFrame
  fatal : Bool
  dec : AVCodecContext
deriving DecidableEq, Repr

/-- Steps 2 and 3 of the decode loop primitive (section 4.2 of the
specification) in the full-drain form: submit, then request frames until the
decoder has none or fails. -/
def spec_submit (dec : AVCodecContext) : Submission :=
  match dec.sends with
  | [] => { frames := [], fatal := true, dec := dec }
  | s :: rest =>
      if s < 0 then { frames := [], fatal := true, dec := { dec with sends := rest } }
      else
        { frames := frames_yielded dec.recvs, fatal := recvs_fatal dec.recvs,
          dec := { dec with sends := rest, recvs := recvs_left dec.recvs } }

/-- The decode loop primitive (section 4.2) run to the end of the container:
packets of other streams are skipped, a fatal answer stops the loop. -/
def spec_drain (stream_idx : Int) : List ReadResult → AVCodecContext → Submission
  | [], dec => { frames := [], fatal := false, dec := dec }
  | r :: rest, dec =>
      if r.ret < 0 then { frames := [], fatal := false, dec := dec }
      else if r.pkt.stream_index = stream_idx then
        let s := spec_submit dec
        if s.fatal then s
        else
          let t := spec_drain stream_idx rest s.dec
          { t with frames := s.frames ++ t.frames }
      else spec_drain stream_idx rest dec

/-- The frames an audio session produces (section 4.3): those of the drain,
then those of the flush. -/
def spec_session_frames (stream_idx : Int) (reads : List ReadResult)
    (dec : AVCodecContext) : List AVFrame :=
  (spec_drain stream_idx reads dec).frames ++
    (spec_submit (spec_drain stream_idx reads dec).dec).frames

/-- A stereo decoder of packed signed 16-bit samples that has nothing to
say. -/
def sampleDecoder : AVCodecContext :=
  { sends := [], recvs := [], pix_fmt := AV_PIX_FMT_YUV420P, sample_fmt := AV_SAMPLE_FMT_S16,
    sample_rate := 44100, nb_channels := 2, codec_is_audio := true }

/-- A container with one packet of stream 0 whose every opening step
succeeds, decoded by `sampleDecoder`. -/
def sampleSource : AudioSource :=
  { avformat_open_input := 0, avformat_find_stream_info := 0,
    fmt_ctx := ⟨[⟨0, ⟨0⟩⟩]⟩, av_find_best_stream := 0, avcodec_find_decoder := true,
    avcodec_alloc_context3 := some sampleDecoder, avcodec_parameters_to_context := 0,
    avcodec_open2 := 0, fopen := true, av_frame_alloc := true, av_packet_alloc := true }

/-- An `AudioDecoder` object before its first call. -/
def sampleObject : AudioDecoder := { m_format := "", m_sample_rate := 0, m_channels := 0 }

/-- A packed stereo frame of two samples per channel, 16 bits each: plane 0
holds eight bytes. -/
def stereoFrame : AVFrame :=
  { pts := 0, nb_samples := 2, format := AV_SAMPLE_FMT_S16, height := 0,
    extended_data := [[1, 2, 3, 4, 5, 6, 7, 8]] }

/-- A decoder that refuses the first packet with `AVERROR(EINVAL)`. -/
def failingDecoder : AVCodecContext := { sampleDecoder with sends := [AVERROR EINVAL] }

/-- A decoder that accepts one packet and yields `stereoFrame` for it. -/
def stereoDecoder : AVCodecContext :=
  { sampleDecoder with
    sends := [0], recvs := [⟨0, stereoFrame⟩, ⟨AVERROR EAGAIN, AVFrame.blank⟩] }

/-- A decoder whose sample format is the 64-bit integer one, which the table
of `get_format_from_sample_fmt` lacks. -/
def s64Decoder : AVCodecContext :=
  { stereoDecoder with sample_fmt := AV_SAMPLE_FMT_S64 }

/-- A constructed reader of a 2x2 video whose container is at its end. -/
def endedReader : VideoReader :=
  { videoReaderState :=
      { width := 2, height := 2, av_format_ctx := ⟨[⟨AVERROR_EOF, ⟨0⟩⟩]⟩,
        av_codec_ctx := sampleDecoder, video_stream_index := 0, av_frame := AVFrame.blank,
        av_packet := ⟨0⟩, sws_scaler_ctx := none },
    frame_buffer := List.replicate 16 0, pts := 7 }

/-- The bytes `output_audio_frame` appends for a frame. -/
def frame_bytes (lib : Lib) (frame : AVFrame) : List Nat :=
  (frame.plane 0).take (unpadded_linesize lib frame)

/-- The session is decoding: the decoder `d` is allocated, the destination
stream is open and holds `bytes`. -/
def Module.live (m : Module) (d : AVCodecContext) (bytes : List Nat) : Prop :=
  m.audio_dec_ctx = some d ∧ m.audio_dst_file = .opened ∧ m.dst = some bytes

instance (m : Module) (d : AVCodecContext) (bytes : List Nat) : Decidable (m.live d bytes) := by
  unfold Module.live; infer_instance

/-- The bytes a list of frames adds to the destination when the codec is an
audio codec; a codec of another type adds none. -/
def written (lib : Lib) (codec_is_audio : Bool) (frames : List AVFrame) : List Nat :=
  if codec_is_audio then frames.flatMap (frame_bytes lib) else []

/-- The value of `AVERROR_STREAM_NOT_FOUND`. -/
def AVERROR_STREAM_NOT_FOUND : Int := -1381258232

/-- The sample container whose decoder refuses the first packet. -/
def failingSource : AudioSource :=
  { sampleSource with avcodec_alloc_context3 := some failingDecoder }

/-- The sample container decoded by `stereoDecoder`. -/
def stereoSource : AudioSource :=
  { sampleSource with avcodec_alloc_context3 := some stereoDecoder }

/-- The sample container decoded by `s64Decoder`. -/
def s64Source : AudioSource :=
  { sampleSource with avcodec_alloc_context3 := some s64Decoder }

/-- A container without an audio stream. -/
def noAudioSource : AudioSource :=
  { sampleSource with av_find_best_stream := AVERROR_STREAM_NOT_FOUND }

/-- The sample container with a destination path that cannot be opened. -/
def noDestinationSource : AudioSource := { sampleSource with fopen := false }

/-! ## Construction and destruction of a `VideoReader` -/

/-- A raw pointer to a native resource as the code holds it: `NULL`, a
pointer to a live resource, or a pointer kept after its resource was
released. -/
inductive Handle where
  | null
  | live
  | dangling
deriving DecidableEq, Repr

/-- The native resources a `VideoReader` holds: the five pointers of
`videoReaderState` that `video_reader_close` passes on, and `frame_buffer`. -/
structure Handles where
  sws_scaler_ctx : Handle
  av_format_ctx : Handle
  av_frame : Handle
  av_packet : Handle
  av_codec_ctx : Handle
  frame_buffer : Handle
deriving DecidableEq, Repr

/-- The handles of an object on which nothing has been allocated. -/
def Handles.none : Handles :=
  { sws_scaler_ctx := .null, av_format_ctx := .null, av_frame := .null, av_packet := .null,
    av_codec_ctx := .null, frame_buffer := .null }

/-- How often each native resource has been handed to its release
function. -/
structure Releases where
  sws_scaler_ctx : Nat
  av_format_ctx : Nat
  av_frame : Nat
  av_packet : Nat
  av_codec_ctx : Nat
deriving DecidableEq, Repr

/-- No release so far. -/
def Releases.zero : Releases :=
  { sws_scaler_ctx := 0, av_format_ctx := 0, av_frame := 0, av_packet := 0, av_codec_ctx := 0 }

/-- A release function that takes the address of the pointer
(`avformat_close_input`, `av_frame_free`, `av_packet_free`,
`avcodec_free_context`): nothing happens on `NULL`, otherwise the resource is
released and the pointer is set to `NULL`. -/
def release_and_reset (h : Handle) (count : Nat) : Handle × Nat :=
  match h with
  | .null => (.null, count)
  | .live => (.null, count + 1)
  | .dangling => (.null, count + 1)

/-- A release function that takes the pointer by value (`sws_freeContext`,
`avformat_free_context`): nothing happens on `NULL`, otherwise the resource is
released and the variable of the caller keeps the pointer. -/
def release_by_value (h : Handle) (count : Nat) : Handle × Nat :=
  match h with
  | .null => (.null, count)
  | .live => (.dangling, count + 1)
  | .dangling => (.dangling, count + 1)

/-- The method `VideoReader::video_reader_close`, on the handles and the
release counts. -/
def video_reader_close (hs : Handles) (rs : Releases) : Handles × Releases :=
  -- sws_freeContext(videoReaderState.sws_scaler_ctx);
  let a := release_by_value hs.sws_scaler_ctx rs.sws_scaler_ctx
  -- avformat_close_input(&videoReaderState.av_format_ctx);
  let b := release_and_reset hs.av_format_ctx rs.av_format_ctx
  -- avformat_free_context(videoReaderState.av_format_ctx);
  let c := release_by_value b.1 b.2
  -- av_frame_free(&videoReaderState.av_frame);
  let d := release_and_reset hs.av_frame rs.av_frame
  -- av_packet_free(&videoReaderState.av_packet);
  let e := release_and_reset hs.av_packet rs.av_packet
  -- avcodec_free_context(&videoReaderState.av_codec_ctx);
  let f := release_and_reset hs.av_codec_ctx rs.av_codec_ctx
  ({ hs with sws_scaler_ctx := a.1, av_format_ctx := c.1, av_frame := d.1, av_packet := e.1,
             av_codec_ctx := f.1 },
   { sws_scaler_ctx := a.2, av_format_ctx := c.2, av_frame := d.2, av_packet := e.2,
     av_codec_ctx := f.2 })

/-- What `video_reader_open` reads of one stream of the container: whether
`avcodec_find_decoder` finds a decoder for its codec, whether its codec type
is `AVMEDIA_TYPE_VIDEO`, and the dimensions in its codec parameters. -/
structure AVStream where
  decoder_registered : Bool
  codec_type_video : Bool
  width : Int
  height : Int
deriving DecidableEq, Repr

/-- What the outside world answers during the construction of a
`VideoReader`: whether the allocations succeed, the return values of the
opening calls, the streams, the container and the decoder they yield, and
the content found in the fresh frame buffer and timestamp slot.  The
unchecked `malloc(sizeof(int64_t))` is taken to succeed. -/
structure VideoSource where
  avformat_alloc_context : Bool
  avformat_open_input : Int
  streams : List AVStream
  fmt_ctx : AVFormatContext
  avcodec_alloc_context3 : Option AVCodecContext
  avcodec_parameters_to_context : Int
  avcodec_open2 : Int
  av_frame_alloc : Bool
  av_packet_alloc : Bool
  aligned_malloc : Nat → Bool
  fresh_byte : Nat → Nat
  fresh_pts : Int

/-- The loop of `video_reader_open` over the streams, from index `i` on: the
index and the stream at which it breaks. -/
def find_video_stream : List AVStream → Nat → Option (Nat × AVStream)
  | [], _ => none
  | st :: rest, i =>
      if st.decoder_registered = false then find_video_stream rest (i + 1)
      else if st.codec_type_video then some (i, st)
      else find_video_stream rest (i + 1)

/-- What `video_reader_open` leaves: its return value, the handles, and the
members of `videoReaderState` it has set. -/
structure Opening where
  ok : Bool
  handles : Handles
  width : Int
  height : Int
  video_stream_index : Int
  av_codec_ctx : Option AVCodecContext
deriving DecidableEq, Repr

/-- The method `VideoReader::video_reader_open` on a fresh object.  A failed
`avformat_open_input` frees the context it was given and resets the
pointer. -/
def video_reader_open (src : VideoSource) : Opening :=
  let none_yet : Opening :=
    { ok := false, handles := Handles.none, width := 0, height := 0, video_stream_index := -1,
      av_codec_ctx := none }
  if src.avformat_alloc_context = false then none_yet
  else if src.avformat_open_input ≠ 0 then none_yet
  else
    let h1 := { Handles.none with av_format_ctx := .live }
    match find_video_stream src.streams 0 with
    | none => { none_yet with handles := h1 }
    | some (i, st) =>
        let found : Opening :=
          { ok := false, handles := h1, width := st.width, height := st.height,
            video_stream_index := i, av_codec_ctx := none }
        match src.avcodec_alloc_context3 with
        | none => found
        | some dec =>
            let h2 := { h1 with av_codec_ctx := .live }
            let opened : Opening := { found with handles := h2, av_codec_ctx := some dec }
            if src.avcodec_parameters_to_context < 0 then opened
            else if src.avcodec_open2 < 0 then opened
            else if src.av_frame_alloc = false then opened
            else
              let h3 := { h2 with av_frame := .live }
              if src.av_packet_alloc = false then { opened with handles := h3 }
              else { opened with ok := true, handles := { h3 with av_packet := .live } }

/-- The argument `frame_width * frame_height * 4` of `_aligned_malloc`,
computed in `int` and converted to `size_t`. -/
def frame_buffer_size (frame_width frame_height : Int) : Nat :=
  to_size_t (wrap32 (wrap32 (frame_width * frame_height) * 4))

/-- An exception a constructor throws. -/
inductive Thrown where
  | invalid_argument
  | runtime_error
deriving DecidableEq, Repr

/-- How the construction of a `VideoReader` ends: with an object, or with an
exception; either way with the native resources it leaves.  No destructor
runs for an object whose constructor throws. -/
inductive Construction where
  | constructed (reader : VideoReader) (handles : Handles)
  | threw (what : Thrown) (handles : Handles)
deriving DecidableEq, Repr

/-- The constructor `VideoReader::VideoReader`. -/
def VideoReader.construct (src : VideoSource) : Construction :=
  let o := video_reader_open src
  match o.ok, o.av_codec_ctx with
  | true, some dec =>
      let size := frame_buffer_size o.width o.height
      if src.aligned_malloc size = false then .threw .runtime_error o.handles
      else
        .constructed
          { videoReaderState :=
              { width := o.width, height := o.height, av_format_ctx := src.fmt_ctx,
                av_codec_ctx := dec, video_stream_index := o.video_stream_index,
                av_frame := AVFrame.blank, av_packet := AVPacket.blank,
                sws_scaler_ctx := none },
            frame_buffer := (List.range size).map src.fresh_byte,
            pts := src.fresh_pts }
          { o.handles with frame_buffer := .live }
  | _, _ => .threw .invalid_argument o.handles

/-- The handles of a constructed reader in use: all live, the scaler context
once a read has created it. -/
def VideoReader.handles (vr : VideoReader) : Handles :=
  { sws_scaler_ctx := if vr.videoReaderState.sws_scaler_ctx.isSome then .live else .null,
    av_format_ctx := .live, av_frame := .live, av_packet := .live, av_codec_ctx := .live,
    frame_buffer := .live }

/-- The bytes a scaler writes to a destination plane of row stride `stride`:
`dstH` rows of `dstW` pixels of 4 bytes, so that the last byte written is at
offset `(dstH - 1) * stride + dstW * 4 - 1`. -/
def scaled_extent (c : SwsContext) (stride : Int) : Int :=
  if c.dstH ≤ 0 then 0 else (c.dstH - 1) * stride + c.dstW * 4

/-- A video stream of 2x2 pixels with a registered decoder. -/
def smallVideoStream : AVStream :=
  { decoder_registered := true, codec_type_video := true, width := 2, height := 2 }

/-- An audio stream with a registered decoder. -/
def soundStream : AVStream :=
  { decoder_registered := true, codec_type_video := false, width := 0, height := 0 }

/-- A decoded picture with timestamp 40. -/
def pictureFrame : AVFrame :=
  { pts := 40, nb_samples := 0, format := AV_PIX_FMT_YUV420P, height := 2,
    extended_data := [[16, 16, 16, 16]] }

/-- A video decoder that accepts one packet and yields `pictureFrame`. -/
def pictureDecoder : AVCodecContext :=
  { sends := [0], recvs := [⟨0, pictureFrame⟩], pix_fmt := AV_PIX_FMT_YUVJ420P,
    sample_fmt := AV_SAMPLE_FMT_NONE, sample_rate := 0, nb_channels := 0,
    codec_is_audio := false }

/-- A file with an audio stream 0 and a 2x2 video stream 1: one packet of
each; every step of the construction succeeds. -/
def movieSource : VideoSource :=
  { avformat_alloc_context := true, avformat_open_input := 0,
    streams := [soundStream, smallVideoStream],
    fmt_ctx := ⟨[⟨0, { stream_index := 0 }⟩, ⟨0, { stream_index := 1 }⟩]⟩,
    avcodec_alloc_context3 := some pictureDecoder, avcodec_parameters_to_context := 0,
    avcodec_open2 := 0, av_frame_alloc := true, av_packet_alloc := true,
    aligned_malloc := fun _ => true, fresh_byte := fun _ => 0, fresh_pts := 0 }

/-- The same file without its video stream. -/
def soundOnlySource : VideoSource := { movieSource with streams := [soundStream] }

/-- The same file on a system where the frame buffer cannot be allocated. -/
def noBufferSource : VideoSource := { movieSource with aligned_malloc := fun _ => false }

/-- The reader constructed on `movieSource`. -/
def movieReader : VideoReader :=
  { videoReaderState :=
      { width := 2, height := 2, av_format_ctx := movieSource.fmt_ctx,
        av_codec_ctx := pictureDecoder, video_stream_index := 1, av_frame := AVFrame.blank,
        av_packet := AVPacket.blank, sws_scaler_ctx := none },
    frame_buffer := List.replicate 16 0, pts := 0 }

/-- The handles of a constructed reader before its first read. -/
def constructedHandles : Handles :=
  { sws_scaler_ctx := .null, av_format_ctx := .live, av_frame := .live, av_packet := .live,
    av_codec_ctx := .live, frame_buffer := .live }

/-- The size check `av_image_check_size2(w, h, ...)` of libavutil for a pixel
format not yet known: both dimensions are positive, and the padded row
`8 * w + 1024` and the padded picture `(8 * w + 1024) * (h + 128)` stay below
`INT_MAX`. -/
def image_size_accepted (w h : Int) : Prop :=
  0 < w ∧ 0 < h ∧ 8 * w + 1024 < 2147483647 ∧ (8 * w + 1024) * (h + 128) < 2147483647

instance (w h : Int) : Decidable (image_size_accepted w h) := by
  unfold image_size_accepted; infer_instance

/-- What libavcodec grants of a source: `avcodec_open2` applies the size check
(through `ff_set_dimensions`) to a codec context whose width and height, which
`avcodec_parameters_to_context` has copied from the codec parameters of the
selected stream, are both non-zero, and fails when the check refuses them. -/
def VideoSource.dimensions_checked (src : VideoSource) : Prop :=
  match find_video_stream src.streams 0 with
  | none => True
  | some (_, st) =>
      0 ≤ src.avcodec_open2 → st.width ≠ 0 → st.height ≠ 0 →
        image_size_accepted st.width st.height

/-- A reader `v` in a state that the constructed reader `vr` can be in later:
the same dimensions, a frame buffer of the same size, and a scaler context, if
there is one, for the dimensions of the reader. -/
def VideoReader.same_picture (v vr : VideoReader) : Prop :=
  v.videoReaderState.width = vr.videoReaderState.width ∧
  v.videoReaderState.height = vr.videoReaderState.height ∧
  v.frame_buffer.length = vr.frame_buffer.length ∧
  ∀ c, v.videoReaderState.sws_scaler_ctx = some c →
    c.dstW = vr.videoReaderState.width ∧ c.dstH = vr.videoReaderState.height

/-! ## Reference definitions for the decode loops -/

/-- The first negative answer among the coming answers of
`avcodec_receive_frame`; a trace that is used up answers `AVERROR_EOF`. -/
def first_negative : List RecvResult → Int
  | [] => AVERROR_EOF
  | r :: rest => if r.ret < 0 then r.ret else first_negative rest

/-- The return value the specification gives for a negative answer `r` of
the decoder: "need more input" and "end of stream" are no errors. -/
def benign_or_error (r : Int) : Int :=
  if r = AVERROR EAGAIN ∨ r = AVERROR_EOF then 0 else r

/-- The packets of the selected stream among the answers `consumed` of
`av_read_frame`, in order, each with its position counted from `i`. -/
def selected_packets (stream_idx : Int) (consumed : List ReadResult) (i : Nat) :
    List (Nat × AVPacket) :=
  ((consumed.enumFrom i).filter
    (fun p => decide (0 ≤ p.2.ret ∧ p.2.pkt.stream_index = stream_idx))).map
    (fun p => (p.1, p.2.pkt))

/-- The answers of `av_read_frame` once the packets of the other streams are
taken out. -/
def without_other_streams (stream_idx : Int) (reads : List ReadResult) : List ReadResult :=
  reads.filter (fun r => decide (r.ret < 0 ∨ r.pkt.stream_index = stream_idx))

/-- The packets the loop of `video_reader_read_frame` and
`video_reader_seek_frame` hands to `avcodec_send_packet`, each with the
position of its `av_read_frame` answer counted from `i`: the control flow of
`decode_loop`, keeping the argument of each `avcodec_send_packet` call. -/
def decode_loop_submitted (video_stream_index : Int) :
    List ReadResult → AVCodecContext → Nat → List (Nat × AVPacket)
  | [], _, _ => []
  | r :: rest, dec, i =>
      if r.ret < 0 then []
      else if r.pkt.stream_index ≠ video_stream_index then
        decode_loop_submitted video_stream_index rest dec (i + 1)
      else
        let s := avcodec_send_packet dec
        (i, r.pkt) ::
          (if s.1 < 0 then []
           else
             let v := avcodec_receive_frame s.2
             if v.1 = AVERROR EAGAIN ∨ v.1 = AVERROR_EOF then
               decode_loop_submitted video_stream_index rest v.2.2 (i + 1)
             else [])

/-- The packets the drain loop of `demuxDecode` hands to `decode_packet`, each
with the position of its `av_read_frame` answer counted from `i`: the control
flow of `read_frames`, keeping the argument of each `decode_packet` call. -/
def read_frames_submitted (lib : Lib) :
    List ReadResult → Int → Module → Nat → List (Nat × AVPacket)
  | [], _, _, _ => []
  | r :: rest, ret, m, i =>
      if r.ret < 0 then []
      else if r.pkt.stream_index = m.audio_stream_idx then
        (i, r.pkt) ::
          (match decode_packet lib { m with pkt := some r.pkt } with
           | .error _ => []
           | .ok (ret1, m1) =>
               if ret1 < 0 then []
               else read_frames_submitted lib rest ret1 { m1 with pkt := some AVPacket.blank }
                 (i + 1))
      else
        if ret < 0 then []
        else read_frames_submitted lib rest ret { m with pkt := some AVPacket.blank } (i + 1)

/-- A reader whose container holds only the packets of its selected
stream. -/
def VideoReader.without_other_streams (vr : VideoReader) : VideoReader :=
  { vr with videoReaderState :=
      { vr.videoReaderState with
        av_format_ctx :=
          ⟨VideoPlayer.without_other_streams vr.videoReaderState.video_stream_index
            vr.videoReaderState.av_format_ctx.reads⟩ } }

/-- The libraries with a container that, after a seek, holds only the packets
of the stream the seek names. -/
def Lib.without_other_streams (lib : Lib) : Lib :=
  { lib with av_seek_frame := fun ctx stream_idx ts =>
      ⟨VideoPlayer.without_other_streams stream_idx (lib.av_seek_frame ctx stream_idx ts).reads⟩ }

/-- An audio source whose container holds only the packets of the stream
`av_find_best_stream` selects. -/
def AudioSource.without_other_streams (src : AudioSource) : AudioSource :=
  { src with fmt_ctx :=
      ⟨VideoPlayer.without_other_streams src.av_find_best_stream src.fmt_ctx.reads⟩ }

/-- A session in the drain loop: the decoder `d` is allocated for stream 0
and the destination is open and empty. -/
def decodingModule (d : AVCodecContext) : Module :=
  { Module.init with
    audio_dec_ctx := some d, audio_stream := true, audio_dst_file := .opened,
    audio_stream_idx := 0, frame := some AVFrame.blank, pkt := some AVPacket.blank,
    dst := some [] }

/-- A container that interleaves a video packet (stream 1) with the audio
packet (stream 0) of `stereoSource`. -/
def mixedSource : AudioSource :=
  { stereoSource with fmt_ctx := ⟨[⟨0, { stream_index := 1 }⟩, ⟨0, { stream_index := 0 }⟩]⟩ }

/-- The module-level state `demuxDecode` leaves after its first call, on
`stereoSource`. -/
def afterFirstCall : Module :=
  { fmt_ctx := none, audio_dec_ctx := none, audio_stream := true, audio_dst_file := .closed,
    audio_stream_idx := 0, frame := none, pkt := none, audio_frame_count := 1,
    dst := some [1, 2, 3, 4] }

/-! ## Theorems -/

/-- For a well-formed frame the size computed in `int` and converted to `size_t`
is the mathematical product. -/
theorem unpadded_linesize_of_well_formed (lib : Lib) (frame : AVFrame)
    (h : frame.well_formed lib) :
    unpadded_linesize lib frame =
      (frame.nb_samples * lib.av_get_bytes_per_sample frame.format).toNat := by
  obtain ⟨h0, h1, -⟩ := h
  unfold unpadded_linesize to_size_t wrap32
  congr 1
  omega

/-- On a decoding session `output_audio_frame` returns 0, appends the bytes of the
frame and keeps the session decoding. -/
theorem output_audio_frame_live (lib : Lib) (m : Module) (frame : AVFrame)
    (d : AVCodecContext) (bytes : List Nat) (h : m.live d bytes) :
    ∃ m', output_audio_frame lib m frame = .ok (0, m') ∧
      m'.live d (bytes ++ frame_bytes lib frame) ∧
      m'.audio_stream = m.audio_stream ∧ m'.audio_stream_idx = m.audio_stream_idx := by
  obtain ⟨h1, h2, h3⟩ := h
  simp [output_audio_frame, h1, h2, h3, Module.live, frame_bytes]

/-- The receive loop of `decode_packet` on a decoding session: it returns, its
result is negative exactly for a fatal answer, it consumes the answers up to
the first negative one and writes the frames before it. -/
theorem receive_frames_live (lib : Lib) (a : Bool) (d : AVCodecContext) :
    ∀ (recvs : List RecvResult) (m : Module) (bytes : List Nat), m.live d bytes →
    ∃ ret m', receive_frames lib a recvs m = .ok (ret, recvs_left recvs, m') ∧
      (ret < 0 ↔ recvs_fatal recvs = true) ∧
      m'.live d (bytes ++ written lib a (frames_yielded recvs)) ∧
      m'.audio_stream = m.audio_stream ∧ m'.audio_stream_idx = m.audio_stream_idx := by
  intro recvs
  induction recvs with
  | nil =>
      intro m bytes h
      obtain ⟨h1, h2, h3⟩ := h
      refine ⟨0, _, rfl, ?_⟩
      simp [Module.live, h1, h2, h3, written, frames_yielded, recvs_fatal]
  | cons r rest ih =>
      intro m bytes h
      obtain ⟨h1, h2, h3⟩ := h
      by_cases hr : r.ret < 0
      · simp only [receive_frames, hr, if_true, recvs_left, frames_yielded]
        split_ifs with hb
        · refine ⟨_, _, rfl, ?_⟩
          rcases hb with hb | hb <;>
            simp [Module.live, h1, h2, h3, written, recvs_fatal, hr, hb, AVERROR_EOF, AVERROR,
              EAGAIN]
        · refine ⟨_, _, rfl, ?_⟩
          simp only [not_or] at hb
          simp [Module.live, h1, h2, h3, written, recvs_fatal, hr, hb.1, hb.2]
      · cases a with
        | true =>
            have hl : ({ m with frame := some r.frame } : Module).live d bytes := ⟨h1, h2, h3⟩
            obtain ⟨m2, e2, l2, s2, i2⟩ := output_audio_frame_live lib _ r.frame d bytes hl
            obtain ⟨ret, m3, e3, f3, l3, s3, i3⟩ := ih m2 _ l2
            refine ⟨ret, m3, ?_, ?_, ?_, by rw [s3, s2], by rw [i3, i2]⟩
            · simp only [receive_frames, hr, if_false, recvs_left, if_true, e2]
              simpa using e3
            · simpa [recvs_fatal, hr] using f3
            · simpa [written, frames_yielded, hr, List.flatMap_cons, List.append_assoc] using l3
        | false =>
            have hl : ({ m with frame := some AVFrame.blank } : Module).live d bytes :=
              ⟨h1, h2, h3⟩
            obtain ⟨ret, m3, e3, f3, l3, s3, i3⟩ := ih _ _ hl
            refine ⟨ret, m3, ?_, ?_, ?_, s3, i3⟩
            · simp only [receive_frames, hr, if_false, recvs_left]
              simpa using e3
            · simpa [recvs_fatal, hr] using f3
            · simpa [written] using l3

/-- A submission leaves the format fields of the decoder alone. -/
theorem spec_submit_fields (d : AVCodecContext) :
    (spec_submit d).dec.sample_fmt = d.sample_fmt ∧
    (spec_submit d).dec.sample_rate = d.sample_rate ∧
    (spec_submit d).dec.nb_channels = d.nb_channels ∧
    (spec_submit d).dec.codec_is_audio = d.codec_is_audio := by
  unfold spec_submit
  split
  · simp
  · split_ifs <;> simp

/-- A drain leaves the format fields of the decoder alone. -/
theorem spec_drain_fields (idx : Int) :
    ∀ (reads : List ReadResult) (d : AVCodecContext),
    (spec_drain idx reads d).dec.sample_fmt = d.sample_fmt ∧
    (spec_drain idx reads d).dec.sample_rate = d.sample_rate ∧
    (spec_drain idx reads d).dec.nb_channels = d.nb_channels ∧
    (spec_drain idx reads d).dec.codec_is_audio = d.codec_is_audio := by
  intro reads
  induction reads with
  | nil => intro d; simp [spec_drain]
  | cons r rest ih =>
      intro d
      simp only [spec_drain]
      split_ifs with h1 h2 h3
      · simp
      · exact spec_submit_fields d
      · obtain ⟨a1, a2, a3, a4⟩ := ih (spec_submit d).dec
        obtain ⟨b1, b2, b3, b4⟩ := spec_submit_fields d
        exact ⟨a1.trans b1, a2.trans b2, a3.trans b3, a4.trans b4⟩
      · exact ih d

/-- On a decoding session `decode_packet` does what `spec_submit` describes. -/
theorem decode_packet_live (lib : Lib) (m : Module) (d : AVCodecContext) (bytes : List Nat)
    (h : m.live d bytes) :
    ∃ ret m', decode_packet lib m = .ok (ret, m') ∧
      (ret < 0 ↔ (spec_submit d).fatal = true) ∧
      m'.live (spec_submit d).dec
        (bytes ++ written lib d.codec_is_audio (spec_submit d).frames) ∧
      m'.audio_stream = m.audio_stream ∧ m'.audio_stream_idx = m.audio_stream_idx := by
  obtain ⟨h1, h2, h3⟩ := h
  cases hs : d.sends with
  | nil =>
      refine ⟨AVERROR_EOF, { m with audio_dec_ctx := some d }, ?_, ?_⟩
      · simp [decode_packet, avcodec_send_packet, h1, hs, AVERROR_EOF]
      · simp [spec_submit, hs, Module.live, h2, h3, written, AVERROR_EOF]
  | cons s rest =>
      by_cases hneg : s < 0
      · refine ⟨s, { m with audio_dec_ctx := some { d with sends := rest } }, ?_, ?_⟩
        · simp [decode_packet, avcodec_send_packet, h1, hs, hneg]
        · simp [spec_submit, hs, Module.live, h2, h3, written, hneg]
      · have hl : ({ m with audio_dec_ctx := some { d with sends := rest } } : Module).live
            { d with sends := rest } bytes := ⟨rfl, h2, h3⟩
        obtain ⟨ret, m1, e, f, l, s1, i1⟩ :=
          receive_frames_live lib d.codec_is_audio _ d.recvs _ bytes hl
        let d1 : AVCodecContext := { d with sends := rest, recvs := recvs_left d.recvs }
        refine ⟨ret, { m1 with audio_dec_ctx := some d1 }, ?_, ?_, ?_, s1, i1⟩
        · simp [decode_packet, avcodec_send_packet, h1, hs, hneg, e, d1]
        · simpa [spec_submit, hs, hneg] using f
        · obtain ⟨-, l2, l3⟩ := l
          simpa [spec_submit, hs, Module.live, hneg, d1] using ⟨l2, l3⟩

/-- No frames, no bytes. -/
theorem written_nil (lib : Lib) (a : Bool) : written lib a [] = [] := by
  cases a <;> simp [written]

/-- The bytes of two runs of frames are those of the first, then those of the
second. -/
theorem written_append (lib : Lib) (a : Bool) (xs ys : List AVFrame) :
    written lib a (xs ++ ys) = written lib a xs ++ written lib a ys := by
  cases a <;> simp [written, List.flatMap_append]

/-- The drain loop of `demuxDecode` on a decoding session does what `spec_drain`
describes. -/
theorem read_frames_live (lib : Lib) :
    ∀ (reads : List ReadResult) (ret : Int) (m : Module) (d : AVCodecContext)
      (bytes : List Nat), m.live d bytes → 0 ≤ ret →
    ∃ ret1 rest m1, read_frames lib reads ret m = .ok (ret1, rest, m1) ∧
      m1.live (spec_drain m.audio_stream_idx reads d).dec
        (bytes ++ written lib d.codec_is_audio (spec_drain m.audio_stream_idx reads d).frames) ∧
      m1.audio_stream = m.audio_stream ∧ m1.audio_stream_idx = m.audio_stream_idx := by
  intro reads
  induction reads with
  | nil =>
      intro ret m d bytes h _
      exact ⟨ret, [], m, rfl, by simpa [spec_drain, written_nil] using h, rfl, rfl⟩
  | cons r rest ih =>
      intro ret m d bytes h hret
      by_cases hr : r.ret < 0
      · exact ⟨ret, rest, m, by simp [read_frames, hr],
          by simpa [spec_drain, hr, written_nil] using h, rfl, rfl⟩
      · by_cases hi : r.pkt.stream_index = m.audio_stream_idx
        · have hl : ({ m with pkt := some r.pkt } : Module).live d bytes := h
          obtain ⟨ret1, m1, e1, f1, l1, s1, i1⟩ := decode_packet_live lib _ d bytes hl
          have s1' : m1.audio_stream = m.audio_stream := s1
          have i1' : m1.audio_stream_idx = m.audio_stream_idx := i1
          by_cases hf : ret1 < 0
          · refine ⟨ret1, rest, { m1 with pkt := some AVPacket.blank }, ?_, ?_, s1', i1'⟩
            · simp [read_frames, hr, hi, e1, hf]
            · have hfat := f1.mp hf
              simpa [spec_drain, hr, hi, hfat] using l1
          · have hfat : (spec_submit d).fatal = false := by
              cases hc : (spec_submit d).fatal with
              | false => rfl
              | true => exact absurd (f1.mpr hc) hf
            have hl2 : ({ m1 with pkt := some AVPacket.blank } : Module).live
                (spec_submit d).dec
                (bytes ++ written lib d.codec_is_audio (spec_submit d).frames) := l1
            obtain ⟨ret2, rest2, m2, e2, l2, s2, i2⟩ :=
              ih ret1 _ (spec_submit d).dec _ hl2 (not_lt.mp hf)
            have i2' : m2.audio_stream_idx = m1.audio_stream_idx := i2
            have s2' : m2.audio_stream = m1.audio_stream := s2
            refine ⟨ret2, rest2, m2, ?_, ?_, s2'.trans s1', i2'.trans i1'⟩
            · simp only [read_frames, hr, if_false, hi, if_true, e1, hf]
              exact e2
            · have hidx : ({ m1 with pkt := some AVPacket.blank } : Module).audio_stream_idx =
                  m.audio_stream_idx := i1'
              rw [hidx, (spec_submit_fields d).2.2.2] at l2
              simpa [spec_drain, hr, hi, hfat, written_append, List.append_assoc] using l2
        · have hl : ({ m with pkt := some AVPacket.blank } : Module).live d bytes := h
          obtain ⟨ret2, rest2, m2, e2, l2, s2, i2⟩ := ih ret _ d bytes hl hret
          refine ⟨ret2, rest2, m2, ?_, ?_, s2, i2⟩
          · simp only [read_frames, hr, if_false, hi, not_lt.mpr hret]
            exact e2
          · simpa [spec_drain, hr, hi] using l2

/-- For the five packed formats `get_format_from_sample_fmt` returns 0 and a
string of the vocabulary. -/
theorem get_format_supported (lib : Lib) (f : Int) (h : supported_sample_fmt f) :
    ∃ s, get_format_from_sample_fmt lib f = (0, some s) ∧ s ∈ vocabulary := by
  unfold supported_sample_fmt at h
  rcases h with h | h | h | h | h <;> subst h <;> cases hb : lib.bigEndian <;>
    simp [get_format_from_sample_fmt, sample_fmt_entries, AV_NE, hb, vocabulary,
      AV_SAMPLE_FMT_U8, AV_SAMPLE_FMT_S16, AV_SAMPLE_FMT_S32, AV_SAMPLE_FMT_FLT,
      AV_SAMPLE_FMT_DBL]

/-- For every other format `get_format_from_sample_fmt` returns -1 and `NULL`. -/
theorem get_format_unsupported (lib : Lib) (f : Int) (h : ¬ supported_sample_fmt f) :
    get_format_from_sample_fmt lib f = (-1, none) := by
  simp only [supported_sample_fmt, not_or, AV_SAMPLE_FMT_U8, AV_SAMPLE_FMT_S16,
    AV_SAMPLE_FMT_S32, AV_SAMPLE_FMT_FLT, AV_SAMPLE_FMT_DBL] at h
  obtain ⟨h0, h1, h2, h3, h4⟩ := h
  simp [get_format_from_sample_fmt, sample_fmt_entries, h0, h1, h2, h3, h4,
    AV_SAMPLE_FMT_U8, AV_SAMPLE_FMT_S16, AV_SAMPLE_FMT_S32, AV_SAMPLE_FMT_FLT,
    AV_SAMPLE_FMT_DBL]

/-- The code after `end:` on a decoding session returns `ret < 0` and keeps the
bytes of the destination. -/
theorem demuxDecode_end_live (ret : Int) (m : Module) (self : AudioDecoder)
    (d : AVCodecContext) (bytes : List Nat) (h : m.live d bytes) :
    ∃ m1, demuxDecode_end ret m self = .ok (if ret < 0 then 1 else 0, m1, self) ∧
      m1.dst = some bytes := by
  obtain ⟨-, h2, h3⟩ := h
  simp [demuxDecode_end, h2, h3]

/-- The metadata block on an unsupported format: the result is 1 and the object
is untouched. -/
theorem demuxDecode_metadata_unsupported (lib : Lib) (ret : Int) (m : Module)
    (self : AudioDecoder) (d : AVCodecContext) (bytes : List Nat) (h : m.live d bytes)
    (hs : m.audio_stream = true)
    (hu : ¬ supported_sample_fmt (packed_equivalent lib d.sample_fmt)) :
    ∃ m1, demuxDecode_metadata lib ret m self = .ok (1, m1, self) ∧ m1.dst = some bytes := by
  obtain ⟨m1, e, hd⟩ := demuxDecode_end_live (-1) m self d bytes h
  refine ⟨m1, ?_, hd⟩
  have hg := get_format_unsupported lib _ hu
  unfold packed_equivalent at hg
  simp [demuxDecode_metadata, hs, h.1, hg, e]

/-- The metadata block on a supported format: the result is 0 and the object
carries format string, sample rate and channel count. -/
theorem demuxDecode_metadata_supported (lib : Lib) (ret : Int) (m : Module)
    (self : AudioDecoder) (d : AVCodecContext) (bytes : List Nat) (h : m.live d bytes)
    (hs : m.audio_stream = true)
    (hu : supported_sample_fmt (packed_equivalent lib d.sample_fmt)) :
    ∃ m1 fmt, demuxDecode_metadata lib ret m self =
        .ok (0, m1, { m_format := fmt, m_sample_rate := d.sample_rate,
                      m_channels := if lib.av_sample_fmt_is_planar d.sample_fmt then 1
                        else d.nb_channels }) ∧
      get_format_from_sample_fmt lib (packed_equivalent lib d.sample_fmt) = (0, some fmt) ∧
      fmt ∈ vocabulary ∧ m1.dst = some bytes := by
  obtain ⟨fmt, hg, hv⟩ := get_format_supported lib _ hu
  obtain ⟨m1, e, hd⟩ := demuxDecode_end_live 0 m
    { m_format := fmt, m_sample_rate := d.sample_rate,
      m_channels := if lib.av_sample_fmt_is_planar d.sample_fmt then 1 else d.nb_channels }
    d bytes h
  refine ⟨m1, fmt, ?_, hg, hv, hd⟩
  unfold packed_equivalent at hg
  simp [demuxDecode_metadata, hs, h.1, hg, e]

/-- When every opening step succeeds `demuxDecode` reaches the metadata block in
a decoding session whose destination holds the bytes of the frames of the
session, with the format fields of the decoder it allocated. -/
theorem demuxDecode_opens (lib : Lib) (src : AudioSource) (m : Module) (self : AudioDecoder)
    (d : AVCodecContext) (ho : src.opens) (hd : src.avcodec_alloc_context3 = some d) :
    ∃ ret m1 d1, demuxDecode lib src m self = demuxDecode_metadata lib ret m1 self ∧
      m1.live d1 (written lib d.codec_is_audio
        (spec_session_frames src.av_find_best_stream src.fmt_ctx.reads d)) ∧
      m1.audio_stream = true ∧ d1.sample_fmt = d.sample_fmt ∧
      d1.sample_rate = d.sample_rate ∧ d1.nb_channels = d.nb_channels := by
  obtain ⟨o1, o2, o3, o4, -, o6, o7, o8, o9, o10⟩ := ho
  have hopen : open_codec_context src m.audio_stream_idx m.audio_dec_ctx =
      (0, src.av_find_best_stream, some d) := by
    simp [open_codec_context, not_lt.mpr o3, o4, hd, not_lt.mpr o6, not_lt.mpr o7]
  let m3 : Module :=
    { m with fmt_ctx := some src.fmt_ctx, audio_stream_idx := src.av_find_best_stream,
             audio_dec_ctx := some d, audio_stream := true, audio_dst_file := .opened,
             dst := some [], frame := some AVFrame.blank, pkt := some AVPacket.blank }
  have hl3 : m3.live d [] := ⟨rfl, rfl, rfl⟩
  obtain ⟨ret1, rest, m4, e4, l4, s4, i4⟩ :=
    read_frames_live lib src.fmt_ctx.reads 0 m3 d [] hl3 le_rfl
  have hl5 : ({ m4 with fmt_ctx := some ⟨rest⟩ } : Module).live _ _ := l4
  obtain ⟨ret2, m6, e6, -, l6, s6, -⟩ := decode_packet_live lib _ _ _ hl5
  have hidx : m3.audio_stream_idx = src.av_find_best_stream := rfl
  rw [hidx] at l4 l6 hl5
  have hf1 := spec_drain_fields src.av_find_best_stream src.fmt_ctx.reads d
  have hf2 := spec_submit_fields (spec_drain src.av_find_best_stream src.fmt_ctx.reads d).dec
  refine ⟨ret1, m6, _, ?_, ?_, ?_, hf2.1.trans hf1.1, hf2.2.1.trans hf1.2.1,
    hf2.2.2.1.trans hf1.2.2.1⟩
  · have e4' : read_frames lib src.fmt_ctx.reads 0 m3 = .ok (ret1, rest, m4) := e4
    simp only [demuxDecode, not_lt.mpr o1, not_lt.mpr o2, if_false, hopen, o8, o9, o10]
    simp only [ge_iff_le, le_refl, true_and, Bool.true_eq_false, if_false, if_true]
    simp only [m3] at e4'
    rw [e4']
    have h5 : m4.audio_dec_ctx = some _ := hl5.1
    simp only [h5] at e6
    simp only [h5, e6]
  · rw [hf1.2.2.2] at l6
    simpa [spec_session_frames, written_append] using l6
  · have s4' : m4.audio_stream = true := s4
    have s6' : m6.audio_stream = m4.audio_stream := s6
    rw [s6', s4']

/-- For a well-formed frame the bytes written are the head of plane 0 the
specification names. -/
theorem well_formed_frame_bytes (lib : Lib) (frame : AVFrame) (h : frame.well_formed lib) :
    frame_bytes lib frame = first_plane_head lib frame := by
  unfold frame_bytes first_plane_head
  rw [unpadded_linesize_of_well_formed lib frame h]

/-- The same for a run of well-formed frames of an audio codec. -/
theorem written_well_formed (lib : Lib) :
    ∀ (frames : List AVFrame), (∀ f ∈ frames, f.well_formed lib) →
    written lib true frames = frames.flatMap (first_plane_head lib) := by
  intro frames
  induction frames with
  | nil => intro _; simp [written]
  | cons f rest ih =>
      intro h
      have hf := well_formed_frame_bytes lib f (h f (List.mem_cons_self f rest))
      have hr := ih (fun g hg => h g (List.mem_cons_of_mem f hg))
      simp only [written, if_true, List.flatMap_cons] at hr ⊢
      rw [hf, hr]

/-- A property of all frames a decoder can answer holds for the frames it yields
and for the answers left. -/
theorem frames_yielded_mem (P : AVFrame → Prop) :
    ∀ (recvs : List RecvResult), (∀ r ∈ recvs, 0 ≤ r.ret → P r.frame) →
    (∀ f ∈ frames_yielded recvs, P f) ∧ (∀ r ∈ recvs_left recvs, 0 ≤ r.ret → P r.frame) := by
  intro recvs
  induction recvs with
  | nil => intro _; simp [frames_yielded, recvs_left]
  | cons r rest ih =>
      intro h
      have hrest : ∀ x ∈ rest, 0 ≤ x.ret → P x.frame :=
        fun x hx => h x (List.mem_cons_of_mem r hx)
      by_cases hr : r.ret < 0
      · simpa [frames_yielded, recvs_left, hr] using hrest
      · obtain ⟨i1, i2⟩ := ih hrest
        have hP : P r.frame := h r (List.mem_cons_self r rest) (not_lt.mp hr)
        refine ⟨?_, by simpa [recvs_left, hr] using i2⟩
        intro f hf
        simp only [frames_yielded, hr, if_false, List.mem_cons] at hf
        rcases hf with hf | hf
        · rw [hf]; exact hP
        · exact i1 f hf

/-- The same for a submission. -/
theorem spec_submit_mem (P : AVFrame → Prop) (d : AVCodecContext)
    (h : ∀ r ∈ d.recvs, 0 ≤ r.ret → P r.frame) :
    (∀ f ∈ (spec_submit d).frames, P f) ∧
      (∀ r ∈ (spec_submit d).dec.recvs, 0 ≤ r.ret → P r.frame) := by
  obtain ⟨i1, i2⟩ := frames_yielded_mem P d.recvs h
  unfold spec_submit
  split
  · exact ⟨by simp, h⟩
  · split_ifs
    · exact ⟨by simp, h⟩
    · exact ⟨i1, i2⟩

/-- The same for a drain. -/
theorem spec_drain_mem (P : AVFrame → Prop) (idx : Int) :
    ∀ (reads : List ReadResult) (d : AVCodecContext),
    (∀ r ∈ d.recvs, 0 ≤ r.ret → P r.frame) →
    (∀ f ∈ (spec_drain idx reads d).frames, P f) ∧
      (∀ r ∈ (spec_drain idx reads d).dec.recvs, 0 ≤ r.ret → P r.frame) := by
  intro reads
  induction reads with
  | nil => intro d h; exact ⟨by simp [spec_drain], by simpa [spec_drain] using h⟩
  | cons r rest ih =>
      intro d h
      obtain ⟨s1, s2⟩ := spec_submit_mem P d h
      simp only [spec_drain]
      split_ifs with h1 h2 h3
      · exact ⟨by simp, h⟩
      · exact ⟨s1, s2⟩
      · obtain ⟨t1, t2⟩ := ih (spec_submit d).dec s2
        refine ⟨?_, t2⟩
        intro f hf
        rcases List.mem_append.mp hf with hf | hf
        · exact s1 f hf
        · exact t1 f hf
      · exact ih d h

/-- The same for the frames of a session. -/
theorem spec_session_frames_mem (P : AVFrame → Prop) (idx : Int) (reads : List ReadResult)
    (d : AVCodecContext) (h : ∀ r ∈ d.recvs, 0 ≤ r.ret → P r.frame) :
    ∀ f ∈ spec_session_frames idx reads d, P f := by
  obtain ⟨t1, t2⟩ := spec_drain_mem P idx reads d h
  obtain ⟨s1, -⟩ := spec_submit_mem P _ t2
  intro f hf
  rcases List.mem_append.mp hf with hf | hf
  · exact t1 f hf
  · exact s1 f hf

/-! ### The claims -/

/-- C1 (the code departs from it): `video_reader_read_frame` and
`video_reader_seek_frame` are to answer false when the container ends before
the decoder has produced a frame.  On `endedReader`, whose first
`av_read_frame` answers `AVERROR_EOF` and whose decoder is never asked, both
answer true. -/
theorem video_reader_answers_true_at_end_of_file :
    endedReader.videoReaderState.av_format_ctx.reads = [⟨AVERROR_EOF, ⟨0⟩⟩] ∧
    AVERROR_EOF < 0 ∧
    (video_reader_read_frame hostLib endedReader).1 = true ∧
    (video_reader_read_frame hostLib endedReader).2.videoReaderState.av_codec_ctx =
      endedReader.videoReaderState.av_codec_ctx ∧
    (video_reader_seek_frame hostLib endedReader 0).1 = true ∧
    (video_reader_seek_frame hostLib endedReader 0).2.videoReaderState.av_codec_ctx =
      endedReader.videoReaderState.av_codec_ctx := by
  refine ⟨rfl, by decide, rfl, rfl, rfl, rfl⟩

/-- C2 (the code departs from it): a negative answer of `decode_packet` in the
drain loop is to make `demuxDecode` report failure.  On `failingSource` the
decoder refuses the only audio packet with `AVERROR(EINVAL)`, `decode_packet`
answers that code, and `demuxDecode` still returns 0, with the metadata
filled in. -/
theorem demuxDecode_returns_zero_after_decode_error :
    failingSource.opens ∧
    (decode_packet hostLib
        { Module.init with audio_dec_ctx := some failingDecoder, audio_dst_file := .opened,
                           dst := some [] }).map Prod.fst = .ok (AVERROR EINVAL) ∧
    AVERROR EINVAL < 0 ∧
    (demuxDecode hostLib failingSource Module.init sampleObject).map
        (fun r => (r.1, r.2.2)) =
      .ok (0, { m_format := "s16le", m_sample_rate := 44100, m_channels := 2 }) := by
  refine ⟨by decide, rfl, by decide, rfl⟩

/-- C3 (the code departs from it): `demuxDecode` is to report failure when the
container has no audio stream or the destination cannot be opened.  On
`noAudioSource` (`av_find_best_stream` answers `AVERROR_STREAM_NOT_FOUND`) and
on `noDestinationSource` (`fopen` answers `NULL`) it sets `ret = 1` and
returns `ret < 0`, which is 0. -/
theorem demuxDecode_returns_zero_when_opening_fails :
    (open_codec_context noAudioSource Module.init.audio_stream_idx
        Module.init.audio_dec_ctx).1 < 0 ∧
    (demuxDecode hostLib noAudioSource Module.init sampleObject).map Prod.fst = .ok 0 ∧
    noDestinationSource.fopen = false ∧
    (demuxDecode hostLib noDestinationSource Module.init sampleObject).map Prod.fst = .ok 0 := by
  refine ⟨by decide, rfl, rfl, rfl⟩

/-- C4: when every opening step succeeds, so that the run reaches the end of
the drain with an audio stream, and the final sample format of the decoder,
a planar one replaced by its packed equivalent, is none of U8, S16, S32, FLT,
DBL, then `demuxDecode` returns a non-zero value and the format string,
sample rate and channel count of the object are those before the call. -/
theorem demuxDecode_unsupported_format_fails (lib : Lib) (src : AudioSource) (m : Module)
    (self : AudioDecoder) (d : AVCodecContext) (ho : src.opens)
    (hd : src.avcodec_alloc_context3 = some d)
    (hu : ¬ supported_sample_fmt (packed_equivalent lib d.sample_fmt)) :
    ∃ r m1 self1, demuxDecode lib src m self = .ok (r, m1, self1) ∧ r ≠ 0 ∧
      self1.getFormat = self.getFormat ∧ self1.getSampleRate = self.getSampleRate ∧
      self1.getNumChannels = self.getNumChannels := by
  obtain ⟨ret, m6, d1, e, l, s, f1, -, -⟩ := demuxDecode_opens lib src m self d ho hd
  rw [← f1] at hu
  obtain ⟨m7, e7, -⟩ := demuxDecode_metadata_unsupported lib ret m6 self d1 _ l s hu
  exact ⟨1, m7, self, e.trans e7, by decide, rfl, rfl, rfl⟩

/-- The hypotheses of `demuxDecode_unsupported_format_fails` hold on `s64Source`. -/
theorem demuxDecode_unsupported_format_fails_witness :
    s64Source.opens ∧ s64Source.avcodec_alloc_context3 = some s64Decoder ∧
    ¬ supported_sample_fmt (packed_equivalent hostLib s64Decoder.sample_fmt) ∧
    ∃ r m1 self1, demuxDecode hostLib s64Source Module.init sampleObject = .ok (r, m1, self1) ∧
      r ≠ 0 ∧ self1.getFormat = sampleObject.getFormat ∧
      self1.getSampleRate = sampleObject.getSampleRate ∧
      self1.getNumChannels = sampleObject.getNumChannels :=
  ⟨by decide, rfl, by decide,
    demuxDecode_unsupported_format_fails hostLib s64Source Module.init sampleObject s64Decoder
      (by decide) rfl (by decide)⟩

/-- C5: `get_format_from_sample_fmt` returns 0 exactly for the sample formats
U8, S16, S32, FLT, DBL; the string it leaves is then "u8", or "s16", "s32",
"f32", "f64" followed by "be" on a big-endian host and "le" on a
little-endian one, a member of the vocabulary; for every other sample format
it returns -1 and leaves `NULL`. -/
theorem get_format_from_sample_fmt_table (lib : Lib) (f : Int) :
    ((get_format_from_sample_fmt lib f).1 = 0 ↔ supported_sample_fmt f) ∧
    get_format_from_sample_fmt lib AV_SAMPLE_FMT_U8 = (0, some "u8") ∧
    get_format_from_sample_fmt lib AV_SAMPLE_FMT_S16 = (0, some ("s16" ++ endian_suffix lib)) ∧
    get_format_from_sample_fmt lib AV_SAMPLE_FMT_S32 = (0, some ("s32" ++ endian_suffix lib)) ∧
    get_format_from_sample_fmt lib AV_SAMPLE_FMT_FLT = (0, some ("f32" ++ endian_suffix lib)) ∧
    get_format_from_sample_fmt lib AV_SAMPLE_FMT_DBL = (0, some ("f64" ++ endian_suffix lib)) ∧
    (supported_sample_fmt f →
      ∃ s, (get_format_from_sample_fmt lib f).2 = some s ∧ s ∈ vocabulary) ∧
    (¬ supported_sample_fmt f → get_format_from_sample_fmt lib f = (-1, none)) := by
  refine ⟨?_, ?_, ?_, ?_, ?_, ?_, ?_, get_format_unsupported lib f⟩
  · constructor
    · intro h
      by_contra hn
      rw [get_format_unsupported lib f hn] at h
      exact absurd h (by decide)
    · intro h
      obtain ⟨s, e, -⟩ := get_format_supported lib f h
      rw [e]
  · cases hb : lib.bigEndian <;> simp [get_format_from_sample_fmt, sample_fmt_entries, AV_NE, hb,
      AV_SAMPLE_FMT_U8]
  · cases hb : lib.bigEndian <;> simp [get_format_from_sample_fmt, sample_fmt_entries, AV_NE, hb,
      AV_SAMPLE_FMT_U8, AV_SAMPLE_FMT_S16, endian_suffix]
  · cases hb : lib.bigEndian <;> simp [get_format_from_sample_fmt, sample_fmt_entries, AV_NE, hb,
      AV_SAMPLE_FMT_U8, AV_SAMPLE_FMT_S16, AV_SAMPLE_FMT_S32, endian_suffix]
  · cases hb : lib.bigEndian <;> simp [get_format_from_sample_fmt, sample_fmt_entries, AV_NE, hb,
      AV_SAMPLE_FMT_U8, AV_SAMPLE_FMT_S16, AV_SAMPLE_FMT_S32, AV_SAMPLE_FMT_FLT,
      endian_suffix]
  · cases hb : lib.bigEndian <;> simp [get_format_from_sample_fmt, sample_fmt_entries, AV_NE, hb,
      AV_SAMPLE_FMT_U8, AV_SAMPLE_FMT_S16, AV_SAMPLE_FMT_S32, AV_SAMPLE_FMT_FLT,
      AV_SAMPLE_FMT_DBL, endian_suffix]
  · intro h
    obtain ⟨s, e, hv⟩ := get_format_supported lib f h
    exact ⟨s, by rw [e], hv⟩

/-- C6: when every opening step succeeds, `demuxDecode` returns, and it
returns 0 exactly when the packed equivalent of the final sample format of
the decoder is supported; then `getNumChannels()` is 1 for a planar format
and the channel count of the decoder otherwise, `getSampleRate()` is the
sample rate of the decoder, and `getFormat()` is the vocabulary string that
`get_format_from_sample_fmt` gives for the packed equivalent. -/
theorem demuxDecode_reports_metadata (lib : Lib) (src : AudioSource) (m : Module)
    (self : AudioDecoder) (d : AVCodecContext) (ho : src.opens)
    (hd : src.avcodec_alloc_context3 = some d) :
    ∃ r m1 self1, demuxDecode lib src m self = .ok (r, m1, self1) ∧
      (r = 0 ↔ supported_sample_fmt (packed_equivalent lib d.sample_fmt)) ∧
      (r = 0 →
        self1.getNumChannels =
          (if lib.av_sample_fmt_is_planar d.sample_fmt then 1 else d.nb_channels) ∧
        self1.getSampleRate = d.sample_rate ∧
        (get_format_from_sample_fmt lib (packed_equivalent lib d.sample_fmt)).2 =
          some self1.getFormat ∧
        self1.getFormat ∈ vocabulary) := by
  obtain ⟨ret, m6, d1, e, l, s, f1, f2, f3⟩ := demuxDecode_opens lib src m self d ho hd
  by_cases hu : supported_sample_fmt (packed_equivalent lib d.sample_fmt)
  · have hu1 := hu
    rw [← f1] at hu1
    obtain ⟨m7, fmt, e7, g, hv, -⟩ :=
      demuxDecode_metadata_supported lib ret m6 self d1 _ l s hu1
    rw [f1] at g
    rw [f1, f2, f3] at e7
    refine ⟨0, m7, _, e.trans e7, ?_, ?_⟩
    · exact ⟨fun _ => hu, fun _ => rfl⟩
    · intro _
      refine ⟨rfl, rfl, ?_, hv⟩
      rw [g]
      rfl
  · have hu1 := hu
    rw [← f1] at hu1
    obtain ⟨m7, e7, -⟩ := demuxDecode_metadata_unsupported lib ret m6 self d1 _ l s hu1
    refine ⟨1, m7, self, e.trans e7, ?_, ?_⟩
    · exact ⟨fun h => absurd h (by decide), fun h => absurd h hu⟩
    · intro h
      exact absurd h (by decide)

/-- The hypotheses of `demuxDecode_reports_metadata` hold on `stereoSource`. -/
theorem demuxDecode_reports_metadata_witness :
    stereoSource.opens ∧ stereoSource.avcodec_alloc_context3 = some stereoDecoder ∧
    ∃ r m1 self1, demuxDecode hostLib stereoSource Module.init sampleObject =
        .ok (r, m1, self1) ∧
      (r = 0 ↔ supported_sample_fmt (packed_equivalent hostLib stereoDecoder.sample_fmt)) ∧
      (r = 0 →
        self1.getNumChannels =
          (if hostLib.av_sample_fmt_is_planar stereoDecoder.sample_fmt then 1
            else stereoDecoder.nb_channels) ∧
        self1.getSampleRate = stereoDecoder.sample_rate ∧
        (get_format_from_sample_fmt hostLib
            (packed_equivalent hostLib stereoDecoder.sample_fmt)).2 = some self1.getFormat ∧
        self1.getFormat ∈ vocabulary) :=
  ⟨by decide, rfl,
    demuxDecode_reports_metadata hostLib stereoSource Module.init sampleObject stereoDecoder
      (by decide) rfl⟩

/-- C7 (the code departs from it): the destination is to hold
samples x bytes per sample x reported channels bytes, also for a packed
source of several channels.  On `stereoSource` the decoder yields one packed
stereo frame of 2 samples of 2 bytes, `demuxDecode` returns 0 and reports 2
channels, yet the destination holds 4 bytes, not 2 x 2 x 2 = 8: the second
half of plane 0 is not written. -/
theorem demuxDecode_packed_stereo_writes_half :
    (demuxDecode hostLib stereoSource Module.init sampleObject).map
        (fun r => (r.1, r.2.1.dst, r.2.2.getNumChannels)) = .ok (0, some [1, 2, 3, 4], 2) ∧
    (spec_session_frames stereoSource.av_find_best_stream stereoSource.fmt_ctx.reads
        stereoDecoder).map (fun f => f.nb_samples) = [2] ∧
    hostLib.av_get_bytes_per_sample stereoDecoder.sample_fmt = 2 ∧
    hostLib.av_sample_fmt_is_planar stereoDecoder.sample_fmt = false ∧
    stereoFrame.plane 0 = [1, 2, 3, 4, 5, 6, 7, 8] ∧
    ([1, 2, 3, 4] : List Nat).length ≠ 2 * 2 * 2 := by
  refine ⟨rfl, rfl, rfl, rfl, rfl, by decide⟩

/-- C8: for a well-formed frame `output_audio_frame` returns 0 and appends to
the open destination the first `nb_samples * bytes_per_sample` bytes of plane
0 and nothing else; and when every opening step succeeds, the codec is an
audio codec and the frames of the decoder are well formed, `demuxDecode`
returns and leaves in the destination the concatenation of these prefixes
over the frames the session produces, in order, those of the flush last. -/
theorem demuxDecode_writes_first_plane_heads (lib : Lib) (src : AudioSource) (m : Module)
    (self : AudioDecoder) (d : AVCodecContext) (ho : src.opens)
    (hd : src.avcodec_alloc_context3 = some d) (ha : d.codec_is_audio = true)
    (hw : ∀ r ∈ d.recvs, 0 ≤ r.ret → r.frame.well_formed lib) :
    (∀ (frame : AVFrame) (m0 : Module) (d0 : AVCodecContext) (bytes : List Nat),
      frame.well_formed lib → m0.live d0 bytes →
      ∃ m1, output_audio_frame lib m0 frame = .ok (0, m1) ∧
        m1.dst = some (bytes ++ (frame.plane 0).take
          (frame.nb_samples * lib.av_get_bytes_per_sample frame.format).toNat) ∧
        ((frame.plane 0).take
          (frame.nb_samples * lib.av_get_bytes_per_sample frame.format).toNat).length =
          (frame.nb_samples * lib.av_get_bytes_per_sample frame.format).toNat) ∧
    ∃ r m1 self1, demuxDecode lib src m self = .ok (r, m1, self1) ∧
      m1.dst = some ((spec_session_frames src.av_find_best_stream src.fmt_ctx.reads
        d).flatMap (first_plane_head lib)) := by
  constructor
  · intro frame m0 d0 bytes hf hl
    obtain ⟨m1, e1, l1, -, -⟩ := output_audio_frame_live lib m0 frame d0 bytes hl
    refine ⟨m1, e1, ?_, ?_⟩
    · rw [l1.2.2, well_formed_frame_bytes lib frame hf]
      rfl
    · rw [List.length_take]
      exact min_eq_left hf.2.2
  · obtain ⟨ret, m6, d1, e, l, s, f1, -, -⟩ := demuxDecode_opens lib src m self d ho hd
    have hall := spec_session_frames_mem (fun f => f.well_formed lib)
      src.av_find_best_stream src.fmt_ctx.reads d hw
    rw [ha, written_well_formed lib _ hall] at l
    by_cases hu : supported_sample_fmt (packed_equivalent lib d1.sample_fmt)
    · obtain ⟨m7, fmt, e7, -, -, h7⟩ :=
        demuxDecode_metadata_supported lib ret m6 self d1 _ l s hu
      exact ⟨0, m7, _, e.trans e7, h7⟩
    · obtain ⟨m7, e7, h7⟩ := demuxDecode_metadata_unsupported lib ret m6 self d1 _ l s hu
      exact ⟨1, m7, self, e.trans e7, h7⟩

/-- The hypotheses of `demuxDecode_writes_first_plane_heads` hold on
`stereoSource`. -/
theorem demuxDecode_writes_first_plane_heads_witness :
    stereoSource.opens ∧ stereoSource.avcodec_alloc_context3 = some stereoDecoder ∧
    stereoDecoder.codec_is_audio = true ∧
    (∀ r ∈ stereoDecoder.recvs, 0 ≤ r.ret → r.frame.well_formed hostLib) ∧
    ∃ r m1 self1, demuxDecode hostLib stereoSource Module.init sampleObject =
        .ok (r, m1, self1) ∧
      m1.dst = some ((spec_session_frames stereoSource.av_find_best_stream
        stereoSource.fmt_ctx.reads stereoDecoder).flatMap (first_plane_head hostLib)) :=
  have hw : ∀ r ∈ stereoDecoder.recvs, 0 ≤ r.ret → r.frame.well_formed hostLib := by
    intro r hr h0
    simp only [stereoDecoder, List.mem_cons, List.mem_singleton, List.not_mem_nil,
      or_false] at hr
    rcases hr with hr | hr
    · subst hr
      refine ⟨by decide, by decide, by decide⟩
    · subst hr
      exact absurd h0 (by decide)
  ⟨by decide, rfl, rfl, hw,
    (demuxDecode_writes_first_plane_heads hostLib stereoSource Module.init sampleObject
      stereoDecoder (by decide) rfl rfl hw).2⟩

/-- C9: `correct_for_deprecated_pixel_format` maps YUVJ420P, YUVJ422P,
YUVJ444P, YUVJ440P to YUV420P, YUV422P, YUV444P, YUV440P and returns every
other pixel format unchanged; its result is never one of the four YUVJ
formats, and applying it twice equals applying it once. -/
theorem correct_for_deprecated_pixel_format_spec (p : Int) :
    correct_for_deprecated_pixel_format AV_PIX_FMT_YUVJ420P = AV_PIX_FMT_YUV420P ∧
    correct_for_deprecated_pixel_format AV_PIX_FMT_YUVJ422P = AV_PIX_FMT_YUV422P ∧
    correct_for_deprecated_pixel_format AV_PIX_FMT_YUVJ444P = AV_PIX_FMT_YUV444P ∧
    correct_for_deprecated_pixel_format AV_PIX_FMT_YUVJ440P = AV_PIX_FMT_YUV440P ∧
    ((p ≠ AV_PIX_FMT_YUVJ420P ∧ p ≠ AV_PIX_FMT_YUVJ422P ∧ p ≠ AV_PIX_FMT_YUVJ444P ∧
        p ≠ AV_PIX_FMT_YUVJ440P) → correct_for_deprecated_pixel_format p = p) ∧
    (correct_for_deprecated_pixel_format p ≠ AV_PIX_FMT_YUVJ420P ∧
      correct_for_deprecated_pixel_format p ≠ AV_PIX_FMT_YUVJ422P ∧
      correct_for_deprecated_pixel_format p ≠ AV_PIX_FMT_YUVJ444P ∧
      correct_for_deprecated_pixel_format p ≠ AV_PIX_FMT_YUVJ440P) ∧
    correct_for_deprecated_pixel_format (correct_for_deprecated_pixel_format p) =
      correct_for_deprecated_pixel_format p := by
  simp only [correct_for_deprecated_pixel_format, AV_PIX_FMT_YUVJ420P, AV_PIX_FMT_YUVJ422P,
    AV_PIX_FMT_YUVJ444P, AV_PIX_FMT_YUVJ440P, AV_PIX_FMT_YUV420P, AV_PIX_FMT_YUV422P,
    AV_PIX_FMT_YUV444P, AV_PIX_FMT_YUV440P]
  refine ⟨by decide, by decide, by decide, by decide, ?_, ?_, ?_⟩
  · rintro ⟨h1, h2, h3, h4⟩
    simp [h1, h2, h3, h4]
  · split_ifs <;> omega
  · split_ifs <;> omega

/-- C10: for every timestamp `ts`, every reader and every behaviour of the
libraries, when `video_reader_seek_frame(ts)` returns true the recorded
timestamp `*pts` is `ts`, whatever frame the priming pass decoded, and when
it returns false `*pts` is what it was. -/
theorem video_reader_seek_frame_pts (lib : Lib) (vr : VideoReader) (ts : Int) :
    ((video_reader_seek_frame lib vr ts).1 = true →
      (video_reader_seek_frame lib vr ts).2.pts = ts) ∧
    ((video_reader_seek_frame lib vr ts).1 = false →
      (video_reader_seek_frame lib vr ts).2.pts = vr.pts) := by
  unfold video_reader_seek_frame
  simp only
  split_ifs with h
  · simp [VideoReader.afterLoop]
  · simp

/-- When the product fits `int`, the size handed to `_aligned_malloc` is the
mathematical product `w * h * 4`. -/
theorem frame_buffer_size_exact (w h : Int) (hw : 0 ≤ w) (hh : 0 ≤ h)
    (hb : w * h * 4 < 2147483648) : frame_buffer_size w h = (w * h * 4).toNat := by
  have hp : 0 ≤ w * h := mul_nonneg hw hh
  unfold frame_buffer_size to_size_t wrap32
  congr 1
  omega

/-- A failure of `avformat_alloc_context` or of `avformat_open_input` leaves
no native resource. -/
theorem video_reader_open_early_failure (src : VideoSource)
    (h : src.avformat_alloc_context = false ∨ src.avformat_open_input ≠ 0) :
    (video_reader_open src).ok = false ∧ (video_reader_open src).handles = Handles.none := by
  unfold video_reader_open
  rcases h with h | h
  · simp [h]
  · by_cases ha : src.avformat_alloc_context = false
    · simp [ha]
    · simp [ha, h]

/-- Two calls of `video_reader_close` release the format context, the frame
slot, the packet slot and the codec context at most once each, and the scaler
context not at all when it was never created. -/
theorem video_reader_close_twice_resets (hs : Handles)
    (h1 : hs.av_format_ctx ≠ .dangling) (h2 : hs.av_frame ≠ .dangling)
    (h3 : hs.av_packet ≠ .dangling) (h4 : hs.av_codec_ctx ≠ .dangling) :
    let once := video_reader_close hs Releases.zero
    let twice := video_reader_close once.1 once.2
    twice.2.av_format_ctx ≤ 1 ∧ twice.2.av_frame ≤ 1 ∧ twice.2.av_packet ≤ 1 ∧
      twice.2.av_codec_ctx ≤ 1 ∧ (hs.sws_scaler_ctx = .null → twice.2.sws_scaler_ctx = 0) := by
  obtain ⟨s, f, fr, p, c, b⟩ := hs
  cases s <;> cases f <;> cases fr <;> cases p <;> cases c <;>
    simp_all [video_reader_close, release_and_reset, release_by_value, Releases.zero]

/-! ### The claims, continued -/

/-- C11 (the code departs from it): a failed construction is to leave no
native resource allocated.  On `soundOnlySource`, a file without a video
stream, `video_reader_open` returns false after `avformat_open_input` has
succeeded, the constructor throws, and the format context stays allocated; on
`noBufferSource`, where `_aligned_malloc` fails, the constructor throws with
the format context, the codec context, the frame slot and the packet slot
allocated. -/
theorem construction_failure_keeps_resources :
    (video_reader_open soundOnlySource).ok = false ∧
    VideoReader.construct soundOnlySource =
      .threw .invalid_argument { Handles.none with av_format_ctx := .live } ∧
    (video_reader_open noBufferSource).ok = true ∧
    VideoReader.construct noBufferSource =
      .threw .runtime_error
        { Handles.none with av_format_ctx := .live, av_codec_ctx := .live, av_frame := .live,
                            av_packet := .live } := by
  refine ⟨rfl, rfl, rfl, rfl⟩

/-- C12 (the code departs from it): two calls of `video_reader_close` are to
release each native resource at most once.  After a successful read on
`movieReader` the scaler context exists; the first call releases it and keeps
the pointer, because `sws_freeContext` takes it by value, and the second call
releases it again. -/
theorem video_reader_close_twice_releases_scaler_twice :
    VideoReader.construct movieSource = .constructed movieReader constructedHandles ∧
    (video_reader_read_frame hostLib movieReader).1 = true ∧
    (video_reader_read_frame hostLib movieReader).2.handles =
      { constructedHandles with sws_scaler_ctx := .live } ∧
    video_reader_close { constructedHandles with sws_scaler_ctx := .live } Releases.zero =
      ({ Handles.none with sws_scaler_ctx := .dangling, frame_buffer := .live },
       { sws_scaler_ctx := 1, av_format_ctx := 1, av_frame := 1, av_packet := 1,
         av_codec_ctx := 1 }) ∧
    video_reader_close { Handles.none with sws_scaler_ctx := .dangling, frame_buffer := .live }
        { sws_scaler_ctx := 1, av_format_ctx := 1, av_frame := 1, av_packet := 1,
          av_codec_ctx := 1 } =
      ({ Handles.none with sws_scaler_ctx := .dangling, frame_buffer := .live },
       { sws_scaler_ctx := 2, av_format_ctx := 1, av_frame := 1, av_packet := 1,
         av_codec_ctx := 1 }) := by
  refine ⟨rfl, rfl, rfl, rfl, rfl⟩

/-- When `video_reader_open` returns true, a stream was selected, the
dimensions are those of its codec parameters and `avcodec_open2` has
succeeded. -/
theorem video_reader_open_ok (src : VideoSource) (h : (video_reader_open src).ok = true) :
    ∃ i st, find_video_stream src.streams 0 = some (i, st) ∧
      (video_reader_open src).width = st.width ∧ (video_reader_open src).height = st.height ∧
      0 ≤ src.avcodec_open2 := by
  unfold video_reader_open at h ⊢
  by_cases h1 : src.avformat_alloc_context = false
  · simp [h1] at h
  by_cases h2 : src.avformat_open_input ≠ 0
  · simp [h1, h2] at h
  simp only [h1, h2, if_false] at h ⊢
  cases hf : find_video_stream src.streams 0 with
  | none => simp [hf] at h
  | some p =>
      obtain ⟨i, st⟩ := p
      simp only [hf] at h ⊢
      cases ha : src.avcodec_alloc_context3 with
      | none => simp [ha] at h
      | some dec =>
          simp only [ha] at h ⊢
          by_cases h3 : src.avcodec_parameters_to_context < 0
          · simp [h3] at h
          by_cases h4 : src.avcodec_open2 < 0
          · simp [h3, h4] at h
          by_cases h5 : src.av_frame_alloc = false
          · simp [h3, h4, h5] at h
          by_cases h6 : src.av_packet_alloc = false
          · simp [h3, h4, h5, h6] at h
          exact ⟨i, st, rfl, by simp [h3, h4, h5, h6], by simp [h3, h4, h5, h6],
            not_lt.mp h4⟩

/-- A constructed reader has the dimensions `video_reader_open` found, a frame
buffer of `frame_buffer_size` bytes and no scaler context yet. -/
theorem construct_constructed (src : VideoSource) (vr : VideoReader) (hs : Handles)
    (hc : VideoReader.construct src = .constructed vr hs) :
    (video_reader_open src).ok = true ∧
      vr.videoReaderState.width = (video_reader_open src).width ∧
      vr.videoReaderState.height = (video_reader_open src).height ∧
      vr.frame_buffer.length =
        frame_buffer_size (video_reader_open src).width (video_reader_open src).height ∧
      vr.videoReaderState.sws_scaler_ctx = none := by
  unfold VideoReader.construct at hc
  simp only at hc
  split at hc
  · rename_i hok hdec
    split_ifs at hc
    simp only [Construction.constructed.injEq] at hc
    obtain ⟨hv, -⟩ := hc
    subst hv
    exact ⟨hok, rfl, rfl, by simp, rfl⟩
  · exact absurd hc (by simp)

/-- Dimensions that are zero or pass the size check have a product `w * h * 4`
below 2^30, which fits `int`, and with rows to write a row stride `w * 4`
that fits `int`. -/
theorem accepted_product_fits (w h : Int)
    (hwh : w ≠ 0 → h ≠ 0 → image_size_accepted w h) :
    wrap32 (w * h) = w * h ∧ wrap32 (wrap32 (w * h) * 4) = w * h * 4 ∧
      0 ≤ w * h * 4 ∧ w * h * 4 < 1073741824 ∧ (h ≠ 0 → wrap32 (w * 4) = w * 4) ∧
      (h ≤ 0 → w * h * 4 = 0) := by
  by_cases hw0 : w = 0
  · subst hw0
    simp [wrap32]
  by_cases hh0 : h = 0
  · subst hh0
    simp [wrap32]
  obtain ⟨a1, a2, a3, a4⟩ := hwh hw0 hh0
  have hp : 0 < w * h := mul_pos a1 a2
  have hexp : (8 * w + 1024) * (h + 128) = 8 * (w * h) + 1024 * w + 1024 * h + 131072 := by
    ring
  rw [hexp] at a4
  have e1 : wrap32 (w * h) = w * h := by
    unfold wrap32
    omega
  have e2 : wrap32 (w * h * 4) = w * h * 4 := by
    unfold wrap32
    omega
  refine ⟨e1, by rw [e1, e2], by omega, by omega, ?_, ?_⟩
  · intro _
    unfold wrap32
    omega
  · intro hle
    omega

/-- A read that returns true has a scaler context, the one the reader had or
a new one for the dimensions of the reader, and has handed it the frame buffer
with the row stride `width * 4` computed in `int`; the dimensions are kept. -/
theorem video_reader_read_frame_scales (lib : Lib) (v : VideoReader)
    (ht : (video_reader_read_frame lib v).1 = true) :
    ∃ c, (video_reader_read_frame lib v).2.videoReaderState.sws_scaler_ctx = some c ∧
      (v.videoReaderState.sws_scaler_ctx = none →
        c.dstW = v.videoReaderState.width ∧ c.dstH = v.videoReaderState.height) ∧
      (∀ c0, v.videoReaderState.sws_scaler_ctx = some c0 → c = c0) ∧
      (video_reader_read_frame lib v).2.videoReaderState.width = v.videoReaderState.width ∧
      (video_reader_read_frame lib v).2.videoReaderState.height = v.videoReaderState.height ∧
      (video_reader_read_frame lib v).2.frame_buffer =
        lib.sws_scale c (video_reader_read_frame lib v).2.videoReaderState.av_frame
          (wrap32 (v.videoReaderState.width * 4)) v.frame_buffer := by
  unfold video_reader_read_frame at ht ⊢
  cases hsws : v.videoReaderState.sws_scaler_ctx with
  | none =>
      simp only [hsws] at ht ⊢
      split_ifs at ht ⊢ with he hok
      exact ⟨_, rfl, fun _ => ⟨rfl, rfl⟩, fun c0 h0 => absurd h0 (by simp), rfl, rfl, rfl⟩
  | some c1 =>
      simp only [hsws] at ht ⊢
      split_ifs at ht ⊢ with he
      exact ⟨c1, rfl, fun h0 => absurd h0 (by simp),
        fun c0 h0 => (Option.some.inj h0), rfl, rfl, rfl⟩

/-- The function `output_audio_frame` returns 0 whenever it returns. -/
theorem output_audio_frame_ret (lib : Lib) (m m1 : Module) (frame : AVFrame) (ret : Int)
    (h : output_audio_frame lib m frame = .ok (ret, m1)) : ret = 0 := by
  unfold output_audio_frame at h
  split at h
  · simp only [Except.ok.injEq, Prod.mk.injEq] at h
    exact h.1.symm
  · exact absurd h (by simp)

/-- The receive loop of `decode_packet` returns 0 when the first negative
answer of the decoder is "need more input" or "end of stream", and that
answer otherwise. -/
theorem receive_frames_ret (lib : Lib) (a : Bool) :
    ∀ (recvs : List RecvResult) (m m1 : Module) (ret : Int) (rest : List RecvResult),
    receive_frames lib a recvs m = .ok (ret, rest, m1) →
    ret = benign_or_error (first_negative recvs) := by
  intro recvs
  induction recvs with
  | nil =>
      intro m m1 ret rest h
      simp only [receive_frames, Except.ok.injEq, Prod.mk.injEq] at h
      simp [first_negative, benign_or_error, ← h.1]
  | cons r rs ih =>
      intro m m1 ret rest h
      by_cases hr : r.ret < 0
      · simp only [receive_frames, hr, if_true] at h
        simp only [first_negative, hr, if_true, benign_or_error]
        split_ifs at h with hb
        · simp only [Except.ok.injEq, Prod.mk.injEq] at h
          rw [if_pos (by tauto)]
          exact h.1.symm
        · simp only [Except.ok.injEq, Prod.mk.injEq] at h
          rw [if_neg (by tauto)]
          exact h.1.symm
      · simp only [first_negative, hr, if_false]
        cases a with
        | true =>
            simp only [receive_frames, hr, if_false, if_true] at h
            cases ho : output_audio_frame lib { m with frame := some r.frame } r.frame with
            | error e => rw [ho] at h; exact absurd h (by simp)
            | ok v =>
                obtain ⟨x, m2⟩ := v
                have hx : x = 0 := output_audio_frame_ret lib _ m2 r.frame x ho
                rw [ho] at h
                simp only [hx, lt_self_iff_false, if_false] at h
                exact ih _ _ _ _ h
        | false =>
            simp only [receive_frames, hr, if_false, Bool.false_eq_true] at h
            exact ih _ _ _ _ h

/-- C14: in a decoding session with an audio codec, when
`avcodec_send_packet` answers `r < 0`, `decode_packet` returns `r` and changes
nothing but the decoder's pending answers to `avcodec_send_packet`: no frame
is requested or written; otherwise it writes the frames the decoder yields,
in order, up to the first negative answer `r` of `avcodec_receive_frame`,
consumes the answers up to that one, and returns 0 when `r` is
`AVERROR(EAGAIN)` or `AVERROR_EOF` and `r` otherwise, so that neither of the
two is returned for a receive result. -/
theorem decode_packet_classifies (lib : Lib) (m : Module) (d : AVCodecContext)
    (bytes : List Nat) (hl : m.live d bytes) (ha : d.codec_is_audio = true) :
    ((avcodec_send_packet d).1 < 0 →
      decode_packet lib m =
        .ok ((avcodec_send_packet d).1,
          { m with audio_dec_ctx := some (avcodec_send_packet d).2 }) ∧
      (avcodec_send_packet d).2.recvs = d.recvs) ∧
    (0 ≤ (avcodec_send_packet d).1 →
      ∃ m1, decode_packet lib m = .ok (benign_or_error (first_negative d.recvs), m1) ∧
        m1.dst = some (bytes ++ (frames_yielded d.recvs).flatMap (frame_bytes lib)) ∧
        m1.audio_dec_ctx =
          some { (avcodec_send_packet d).2 with recvs := recvs_left d.recvs } ∧
        benign_or_error (first_negative d.recvs) ≠ AVERROR EAGAIN ∧
        benign_or_error (first_negative d.recvs) ≠ AVERROR_EOF) := by
  obtain ⟨h1, h2, h3⟩ := hl
  constructor
  · intro hneg
    constructor
    · simp [decode_packet, h1, hneg]
    · unfold avcodec_send_packet
      split <;> rfl
  · intro hpos
    have hnot : ¬ (avcodec_send_packet d).1 < 0 := not_lt.mpr hpos
    have hrecvs : (avcodec_send_packet d).2.recvs = d.recvs := by
      unfold avcodec_send_packet
      split <;> rfl
    have hl2 : ({ m with audio_dec_ctx := some (avcodec_send_packet d).2 } : Module).live
        (avcodec_send_packet d).2 bytes := ⟨rfl, h2, h3⟩
    obtain ⟨ret, m2, e, -, l, -, -⟩ :=
      receive_frames_live lib d.codec_is_audio _ d.recvs _ bytes hl2
    have hret := receive_frames_ret lib d.codec_is_audio d.recvs _ m2 ret _ e
    let dec1 : AVCodecContext := { (avcodec_send_packet d).2 with recvs := recvs_left d.recvs }
    refine ⟨{ m2 with audio_dec_ctx := some dec1 }, ?_, ?_, rfl, ?_, ?_⟩
    · simp only [decode_packet, h1, hnot, if_false, hrecvs, e, hret]
    · have hdst : m2.dst = _ := l.2.2
      rw [ha] at hdst
      simpa [written] using hdst
    · unfold benign_or_error
      split_ifs with hb
      · simp [AVERROR, EAGAIN]
      · exact fun h => hb (Or.inl h)
    · unfold benign_or_error
      split_ifs with hb
      · simp [AVERROR_EOF]
      · exact fun h => hb (Or.inr h)

/-- The session `decodingModule stereoDecoder` meets the hypotheses of
`decode_packet_classifies`. -/
theorem decode_packet_classifies_witness :
    (decodingModule stereoDecoder).live stereoDecoder [] ∧
    stereoDecoder.codec_is_audio = true ∧
    0 ≤ (avcodec_send_packet stereoDecoder).1 ∧
    ∃ m1, decode_packet hostLib (decodingModule stereoDecoder) =
        .ok (benign_or_error (first_negative stereoDecoder.recvs), m1) ∧
      m1.dst = some ([] ++ (frames_yielded stereoDecoder.recvs).flatMap (frame_bytes hostLib)) ∧
      m1.audio_dec_ctx =
        some { (avcodec_send_packet stereoDecoder).2 with
               recvs := recvs_left stereoDecoder.recvs } ∧
      benign_or_error (first_negative stereoDecoder.recvs) ≠ AVERROR EAGAIN ∧
      benign_or_error (first_negative stereoDecoder.recvs) ≠ AVERROR_EOF :=
  ⟨by decide, rfl, by decide,
    (decode_packet_classifies hostLib (decodingModule stereoDecoder) stereoDecoder []
      (by decide) rfl).2 (by decide)⟩

/-- The selected packets of a list of answers, answer by answer. -/
theorem selected_packets_cons (idx : Int) (r : ReadResult) (c : List ReadResult) (i : Nat) :
    selected_packets idx (r :: c) i =
      (if 0 ≤ r.ret ∧ r.pkt.stream_index = idx then [(i, r.pkt)] else []) ++
        selected_packets idx c (i + 1) := by
  unfold selected_packets
  by_cases h : 0 ≤ r.ret ∧ r.pkt.stream_index = idx
  · simp [List.enumFrom_cons, List.filter_cons, h]
  · simp [List.enumFrom_cons, List.filter_cons, h]

/-- No answers, no packets. -/
theorem selected_packets_nil (idx : Int) (i : Nat) : selected_packets idx [] i = [] := by
  simp [selected_packets]

/-- A call of `avcodec_send_packet` uses up one pending answer. -/
theorem avcodec_send_packet_sends (dec : AVCodecContext) :
    (avcodec_send_packet dec).2.sends = dec.sends.drop 1 := by
  unfold avcodec_send_packet
  split <;> simp_all

/-- A call of `avcodec_receive_frame` uses up no answer of
`avcodec_send_packet`. -/
theorem avcodec_receive_frame_sends (dec : AVCodecContext) :
    (avcodec_receive_frame dec).2.2.sends = dec.sends := by
  unfold avcodec_receive_frame
  split <;> rfl

/-- The loop of `video_reader_read_frame` and `video_reader_seek_frame`
submits exactly the packets of the selected stream among the answers it
consumes, in order, and uses up one answer of `avcodec_send_packet` for
each. -/
theorem decode_loop_submitted_selected (idx : Int) :
    ∀ (reads : List ReadResult) (dec : AVCodecContext) (frame : AVFrame) (pkt : AVPacket)
      (i : Nat),
    ∃ consumed, reads = consumed ++ (decode_loop idx reads dec frame pkt).av_format_ctx.reads ∧
      decode_loop_submitted idx reads dec i = selected_packets idx consumed i ∧
      (decode_loop idx reads dec frame pkt).av_codec_ctx.sends =
        dec.sends.drop (decode_loop_submitted idx reads dec i).length := by
  intro reads
  induction reads with
  | nil =>
      intro dec frame pkt i
      exact ⟨[], by simp [decode_loop], by simp [decode_loop_submitted, selected_packets_nil],
        by simp [decode_loop, decode_loop_submitted]⟩
  | cons r rest ih =>
      intro dec frame pkt i
      by_cases hr : r.ret < 0
      · refine ⟨[r], by simp [decode_loop, hr], ?_, by simp [decode_loop, decode_loop_submitted, hr]⟩
        simp [decode_loop_submitted, hr, selected_packets_cons, selected_packets_nil,
          not_le.mpr hr]
      · by_cases hi : r.pkt.stream_index = idx
        · by_cases hs : (avcodec_send_packet dec).1 < 0
          · refine ⟨[r], by simp [decode_loop, hr, hi, hs], ?_, ?_⟩
            · simp [decode_loop_submitted, hr, hi, hs, selected_packets_cons,
                selected_packets_nil, not_lt.mp hr]
            · simp [decode_loop, decode_loop_submitted, hr, hi, hs, avcodec_send_packet_sends]
          · by_cases hb : (avcodec_receive_frame (avcodec_send_packet dec).2).1 = AVERROR EAGAIN ∨
                (avcodec_receive_frame (avcodec_send_packet dec).2).1 = AVERROR_EOF
            · obtain ⟨c, e1, e2, e3⟩ :=
                ih (avcodec_receive_frame (avcodec_send_packet dec).2).2.2
                  (avcodec_receive_frame (avcodec_send_packet dec).2).2.1 AVPacket.blank (i + 1)
              refine ⟨r :: c, ?_, ?_, ?_⟩
              · simp only [decode_loop, hr, if_false, hi, ne_eq, not_true_eq_false, hs, hb,
                  if_true, List.cons_append]
                exact congrArg _ e1
              · simp only [decode_loop_submitted, hr, if_false, hi, ne_eq, not_true_eq_false,
                  hs, hb, if_true, selected_packets_cons, not_lt.mp hr, and_self,
                  List.singleton_append, e2]
              · simp only [decode_loop, decode_loop_submitted, hr, if_false, hi, ne_eq,
                  not_true_eq_false, hs, hb, if_true, List.length_cons]
                rw [e3, avcodec_receive_frame_sends, avcodec_send_packet_sends,
                  List.drop_drop]
                congr 1
                omega
            · by_cases hv : (avcodec_receive_frame (avcodec_send_packet dec).2).1 < 0
              · refine ⟨[r], by simp [decode_loop, hr, hi, hs, hb, hv], ?_, ?_⟩
                · simp [decode_loop_submitted, hr, hi, hs, hb, selected_packets_cons,
                    selected_packets_nil, not_lt.mp hr]
                · simp [decode_loop, decode_loop_submitted, hr, hi, hs, hb, hv,
                    avcodec_send_packet_sends, avcodec_receive_frame_sends]
              · refine ⟨[r], by simp [decode_loop, hr, hi, hs, hb, hv], ?_, ?_⟩
                · simp [decode_loop_submitted, hr, hi, hs, hb, selected_packets_cons,
                    selected_packets_nil, not_lt.mp hr]
                · simp [decode_loop, decode_loop_submitted, hr, hi, hs, hb, hv,
                    avcodec_send_packet_sends, avcodec_receive_frame_sends]
        · obtain ⟨c, e1, e2, e3⟩ := ih dec frame AVPacket.blank (i + 1)
          refine ⟨r :: c, ?_, ?_, ?_⟩
          · simp only [decode_loop, hr, if_false, ne_eq, hi, not_false_eq_true, if_true,
              List.cons_append]
            exact congrArg _ e1
          · simp only [decode_loop_submitted, hr, if_false, ne_eq, hi, not_false_eq_true,
              if_true, selected_packets_cons, and_false, List.nil_append, e2]
          · simp only [decode_loop, decode_loop_submitted, hr, if_false, ne_eq, hi,
              not_false_eq_true, if_true]
            exact e3

/-- Packets of other streams change neither the way the loop of
`video_reader_read_frame` and `video_reader_seek_frame` is left nor the
decoder and the frame slot it leaves. -/
theorem decode_loop_without_other_streams (idx : Int) :
    ∀ (reads : List ReadResult) (dec : AVCodecContext) (frame : AVFrame) (pkt pkt1 : AVPacket),
    (decode_loop idx (without_other_streams idx reads) dec frame pkt).exit =
        (decode_loop idx reads dec frame pkt1).exit ∧
      (decode_loop idx (without_other_streams idx reads) dec frame pkt).av_codec_ctx =
        (decode_loop idx reads dec frame pkt1).av_codec_ctx ∧
      (decode_loop idx (without_other_streams idx reads) dec frame pkt).av_frame =
        (decode_loop idx reads dec frame pkt1).av_frame := by
  intro reads
  induction reads with
  | nil =>
      intro dec frame pkt pkt1
      simp [without_other_streams, decode_loop]
  | cons r rest ih =>
      intro dec frame pkt pkt1
      by_cases hr : r.ret < 0
      · simp [without_other_streams, decode_loop, hr]
      · by_cases hi : r.pkt.stream_index = idx
        · have hk : without_other_streams idx (r :: rest) =
              r :: without_other_streams idx rest := by
            simp [without_other_streams, hi]
          rw [hk]
          simp only [decode_loop, hr, if_false, hi, ne_eq, not_true_eq_false]
          split_ifs
          · exact ⟨rfl, rfl, rfl⟩
          · exact ih _ _ _ _
          · exact ⟨rfl, rfl, rfl⟩
          · exact ⟨rfl, rfl, rfl⟩
        · have hk : without_other_streams idx (r :: rest) = without_other_streams idx rest := by
            simp [without_other_streams, hr, hi]
          rw [hk]
          simp only [decode_loop, hr, if_false, ne_eq, hi, not_false_eq_true, if_true]
          exact ih _ _ _ _

/-- Packets of other streams change neither the return value of
`video_reader_read_frame` nor the timestamp and the frame buffer it leaves. -/
theorem video_reader_read_frame_without_other_streams (lib : Lib) (vr : VideoReader) :
    (video_reader_read_frame lib vr.without_other_streams).1 =
        (video_reader_read_frame lib vr).1 ∧
      (video_reader_read_frame lib vr.without_other_streams).2.pts =
        (video_reader_read_frame lib vr).2.pts ∧
      (video_reader_read_frame lib vr.without_other_streams).2.frame_buffer =
        (video_reader_read_frame lib vr).2.frame_buffer := by
  obtain ⟨h1, h2, h3⟩ := decode_loop_without_other_streams
    vr.videoReaderState.video_stream_index vr.videoReaderState.av_format_ctx.reads
    vr.videoReaderState.av_codec_ctx vr.videoReaderState.av_frame
    vr.videoReaderState.av_packet vr.videoReaderState.av_packet
  simp only [video_reader_read_frame, VideoReader.without_other_streams, VideoReader.afterLoop,
    h1, h2, h3]
  by_cases he : (decode_loop vr.videoReaderState.video_stream_index
      vr.videoReaderState.av_format_ctx.reads vr.videoReaderState.av_codec_ctx
      vr.videoReaderState.av_frame vr.videoReaderState.av_packet).exit = .returned_false
  · simp [he]
  · simp only [he, if_false]
    cases vr.videoReaderState.sws_scaler_ctx with
    | some c => simp
    | none =>
        simp only
        split <;> simp

/-- Packets of other streams that the container returns after the seek change
neither the return value of `video_reader_seek_frame` nor the timestamp and
the frame buffer it leaves. -/
theorem video_reader_seek_frame_without_other_streams (lib : Lib) (vr : VideoReader)
    (ts : Int) :
    (video_reader_seek_frame lib.without_other_streams vr ts).1 =
        (video_reader_seek_frame lib vr ts).1 ∧
      (video_reader_seek_frame lib.without_other_streams vr ts).2.pts =
        (video_reader_seek_frame lib vr ts).2.pts ∧
      (video_reader_seek_frame lib.without_other_streams vr ts).2.frame_buffer =
        (video_reader_seek_frame lib vr ts).2.frame_buffer := by
  obtain ⟨h1, -, -⟩ := decode_loop_without_other_streams
    vr.videoReaderState.video_stream_index
    (lib.av_seek_frame vr.videoReaderState.av_format_ctx
      vr.videoReaderState.video_stream_index ts).reads
    vr.videoReaderState.av_codec_ctx vr.videoReaderState.av_frame
    vr.videoReaderState.av_packet vr.videoReaderState.av_packet
  simp only [video_reader_seek_frame, Lib.without_other_streams, VideoReader.afterLoop, h1]
  split_ifs <;> simp

/-- Packets of other streams change nothing in what the drain of the
specification yields. -/
theorem spec_drain_without_other_streams (idx : Int) :
    ∀ (reads : List ReadResult) (d : AVCodecContext),
    spec_drain idx (without_other_streams idx reads) d = spec_drain idx reads d := by
  intro reads
  induction reads with
  | nil => intro d; simp [without_other_streams]
  | cons r rest ih =>
      intro d
      by_cases hr : r.ret < 0
      · simp [without_other_streams, spec_drain, hr]
      · by_cases hi : r.pkt.stream_index = idx
        · have hk : without_other_streams idx (r :: rest) =
              r :: without_other_streams idx rest := by
            simp [without_other_streams, hi]
          rw [hk]
          simp only [spec_drain, hr, if_false, hi, if_true]
          rw [ih]
        · have hk : without_other_streams idx (r :: rest) = without_other_streams idx rest := by
            simp [without_other_streams, hr, hi]
          rw [hk]
          simp only [spec_drain, hr, if_false, hi]
          exact ih d

/-- The drain loop of `demuxDecode` on a decoding session submits exactly the
packets of the selected stream among the answers it consumes, in order. -/
theorem read_frames_submitted_selected (lib : Lib) :
    ∀ (reads : List ReadResult) (ret : Int) (m : Module) (d : AVCodecContext)
      (bytes : List Nat) (i : Nat), m.live d bytes → 0 ≤ ret →
    ∃ ret1 rest m1 consumed, read_frames lib reads ret m = .ok (ret1, rest, m1) ∧
      reads = consumed ++ rest ∧
      read_frames_submitted lib reads ret m i =
        selected_packets m.audio_stream_idx consumed i := by
  intro reads
  induction reads with
  | nil =>
      intro ret m d bytes i _ _
      exact ⟨ret, [], m, [], rfl, rfl, by simp [read_frames_submitted, selected_packets_nil]⟩
  | cons r rest ih =>
      intro ret m d bytes i h hret
      by_cases hr : r.ret < 0
      · refine ⟨ret, rest, m, [r], by simp [read_frames, hr], rfl, ?_⟩
        simp [read_frames_submitted, hr, selected_packets_cons, selected_packets_nil,
          not_le.mpr hr]
      · by_cases hi : r.pkt.stream_index = m.audio_stream_idx
        · have hl : ({ m with pkt := some r.pkt } : Module).live d bytes := h
          obtain ⟨ret1, m1, e1, -, l1, -, i1⟩ := decode_packet_live lib _ d bytes hl
          have i1' : m1.audio_stream_idx = m.audio_stream_idx := i1
          by_cases hf : ret1 < 0
          · refine ⟨ret1, rest, { m1 with pkt := some AVPacket.blank }, [r], ?_, rfl, ?_⟩
            · simp [read_frames, hr, hi, e1, hf]
            · simp [read_frames_submitted, hr, hi, e1, hf, selected_packets_cons,
                selected_packets_nil, not_lt.mp hr]
          · have hl2 : ({ m1 with pkt := some AVPacket.blank } : Module).live
                (spec_submit d).dec
                (bytes ++ written lib d.codec_is_audio (spec_submit d).frames) := l1
            obtain ⟨ret2, rest2, m2, c, e2, e3, e4⟩ :=
              ih ret1 _ (spec_submit d).dec _ (i + 1) hl2 (not_lt.mp hf)
            refine ⟨ret2, rest2, m2, r :: c, ?_, ?_, ?_⟩
            · simp only [read_frames, hr, if_false, hi, if_true, e1, hf]
              exact e2
            · rw [e3]; rfl
            · have e5 : read_frames_submitted lib rest ret1
                  { m1 with pkt := some AVPacket.blank } (i + 1) =
                  selected_packets m.audio_stream_idx c (i + 1) :=
                e4.trans (congrArg (fun k => selected_packets k c (i + 1)) i1')
              simp only [read_frames_submitted, hr, if_false, hi, if_true, e1, hf,
                selected_packets_cons, not_lt.mp hr, and_self, List.singleton_append, e5]
        · have hl : ({ m with pkt := some AVPacket.blank } : Module).live d bytes := h
          obtain ⟨ret2, rest2, m2, c, e2, e3, e4⟩ := ih ret _ d bytes (i + 1) hl hret
          refine ⟨ret2, rest2, m2, r :: c, ?_, ?_, ?_⟩
          · simp only [read_frames, hr, if_false, hi, not_lt.mpr hret]
            exact e2
          · rw [e3]; rfl
          · have e5 : read_frames_submitted lib rest ret
                { m with pkt := some AVPacket.blank } (i + 1) =
                selected_packets m.audio_stream_idx c (i + 1) := e4
            simp only [read_frames_submitted, hr, if_false, hi, not_lt.mpr hret,
              selected_packets_cons, and_false, List.nil_append, e5]

/-- When every opening step succeeds, `demuxDecode` returns, and its return
value, the object and the bytes of the destination are those the decoder and
the frames of the session determine. -/
theorem demuxDecode_opens_result (lib : Lib) (src : AudioSource) (m : Module)
    (self : AudioDecoder) (d : AVCodecContext) (ho : src.opens)
    (hd : src.avcodec_alloc_context3 = some d) :
    ∃ r m1 self1, demuxDecode lib src m self = .ok (r, m1, self1) ∧
      m1.dst = some (written lib d.codec_is_audio
        (spec_session_frames src.av_find_best_stream src.fmt_ctx.reads d)) ∧
      (r = 0 ↔ supported_sample_fmt (packed_equivalent lib d.sample_fmt)) ∧
      (r = 0 ∨ r = 1) ∧
      (¬ supported_sample_fmt (packed_equivalent lib d.sample_fmt) → self1 = self) ∧
      (∀ fmt, get_format_from_sample_fmt lib (packed_equivalent lib d.sample_fmt) =
          (0, some fmt) →
        self1 = { m_format := fmt, m_sample_rate := d.sample_rate,
                  m_channels := if lib.av_sample_fmt_is_planar d.sample_fmt then 1
                    else d.nb_channels }) := by
  obtain ⟨ret, m6, d1, e, l, s, f1, f2, f3⟩ := demuxDecode_opens lib src m self d ho hd
  by_cases hu : supported_sample_fmt (packed_equivalent lib d.sample_fmt)
  · have hu1 := hu
    rw [← f1] at hu1
    obtain ⟨m7, fmt, e7, g, -, h7⟩ :=
      demuxDecode_metadata_supported lib ret m6 self d1 _ l s hu1
    rw [f1] at g
    rw [f1, f2, f3] at e7
    refine ⟨0, m7, _, e.trans e7, h7, ⟨fun _ => hu, fun _ => rfl⟩, Or.inl rfl,
      fun h => absurd hu h, ?_⟩
    intro fmt1 hg
    rw [g] at hg
    simp only [Prod.mk.injEq, Option.some.injEq, true_and] at hg
    rw [hg]
  · have hu1 := hu
    rw [← f1] at hu1
    obtain ⟨m7, e7, h7⟩ := demuxDecode_metadata_unsupported lib ret m6 self d1 _ l s hu1
    refine ⟨1, m7, self, e.trans e7, h7, ⟨fun h => absurd h (by decide), fun h => absurd h hu⟩,
      Or.inr rfl, fun _ => rfl, ?_⟩
    intro fmt hg
    rw [get_format_unsupported lib _ hu] at hg
    exact absurd hg (by simp)

/-- Two runs of `demuxDecode` in which every opening step succeeds, with the
same decoder and the same frames of the session, return the same value and
leave the same object and the same bytes in the destination, whatever the
module-level state at entry. -/
theorem demuxDecode_opens_agree (lib : Lib) (src src1 : AudioSource) (m m1 : Module)
    (self : AudioDecoder) (d : AVCodecContext) (ho : src.opens) (ho1 : src1.opens)
    (hd : src.avcodec_alloc_context3 = some d) (hd1 : src1.avcodec_alloc_context3 = some d)
    (hf : spec_session_frames src.av_find_best_stream src.fmt_ctx.reads d =
      spec_session_frames src1.av_find_best_stream src1.fmt_ctx.reads d) :
    ∃ r n n1 self1, demuxDecode lib src m self = .ok (r, n, self1) ∧
      demuxDecode lib src1 m1 self = .ok (r, n1, self1) ∧ n.dst = n1.dst := by
  obtain ⟨r1, n1, s1, e1, b1, z1, o1, u1, g1⟩ := demuxDecode_opens_result lib src m self d ho hd
  obtain ⟨r2, n2, s2, e2, b2, z2, o2, u2, g2⟩ :=
    demuxDecode_opens_result lib src1 m1 self d ho1 hd1
  have hb : n1.dst = n2.dst := by rw [b1, b2, hf]
  have hr : r1 = r2 := by
    by_cases hu : supported_sample_fmt (packed_equivalent lib d.sample_fmt)
    · rw [z1.mpr hu, z2.mpr hu]
    · have c1 : r1 ≠ 0 := fun h => hu (z1.mp h)
      have c2 : r2 ≠ 0 := fun h => hu (z2.mp h)
      rcases o1 with o1 | o1
      · exact absurd o1 c1
      · rcases o2 with o2 | o2
        · exact absurd o2 c2
        · rw [o1, o2]
  have hs : s1 = s2 := by
    by_cases hu : supported_sample_fmt (packed_equivalent lib d.sample_fmt)
    · obtain ⟨fmt, g, -⟩ := get_format_supported lib _ hu
      rw [g1 fmt g, g2 fmt g]
    · rw [u1 hu, u2 hu]
  refine ⟨r1, n1, n2, s1, e1, ?_, hb⟩
  rw [e2, hr, hs]

/-- When every opening step succeeds, packets of other streams change neither
the return value of `demuxDecode` nor the object nor the bytes of the
destination. -/
theorem demuxDecode_without_other_streams (lib : Lib) (src : AudioSource) (m : Module)
    (self : AudioDecoder) (d : AVCodecContext) (ho : src.opens)
    (hd : src.avcodec_alloc_context3 = some d) :
    ∃ r m1 m2 self1, demuxDecode lib src m self = .ok (r, m1, self1) ∧
      demuxDecode lib src.without_other_streams m self = .ok (r, m2, self1) ∧
      m1.dst = m2.dst := by
  refine demuxDecode_opens_agree lib src src.without_other_streams m m self d ho ho hd hd ?_
  simp only [AudioSource.without_other_streams, spec_session_frames,
    spec_drain_without_other_streams]

/-- C15: the loop of `video_reader_read_frame` and `video_reader_seek_frame`
and the drain loop of `demuxDecode` hand a packet to the decoder exactly when
its stream index is the selected one: the packets submitted are, in order and
with their positions, the packets of the selected stream among the answers of
`av_read_frame` consumed before the loop stops, one answer of
`avcodec_send_packet` being used up for each; and taking the packets of the
other streams out of the container changes neither the return value nor the
timestamp and frame buffer of a read or a seek, nor the return value, the
object and the bytes written of `demuxDecode`. -/
theorem other_streams_are_skipped (lib : Lib) (src : AudioSource) (m : Module)
    (self : AudioDecoder) (d : AVCodecContext) (ho : src.opens)
    (hd : src.avcodec_alloc_context3 = some d) :
    (∀ (idx : Int) (reads : List ReadResult) (dec : AVCodecContext) (frame : AVFrame)
        (pkt : AVPacket),
      ∃ consumed, reads = consumed ++ (decode_loop idx reads dec frame pkt).av_format_ctx.reads ∧
        decode_loop_submitted idx reads dec 0 = selected_packets idx consumed 0 ∧
        (decode_loop idx reads dec frame pkt).av_codec_ctx.sends =
          dec.sends.drop (decode_loop_submitted idx reads dec 0).length) ∧
    (∀ (vr : VideoReader),
      (video_reader_read_frame lib vr.without_other_streams).1 =
          (video_reader_read_frame lib vr).1 ∧
        (video_reader_read_frame lib vr.without_other_streams).2.pts =
          (video_reader_read_frame lib vr).2.pts ∧
        (video_reader_read_frame lib vr.without_other_streams).2.frame_buffer =
          (video_reader_read_frame lib vr).2.frame_buffer) ∧
    (∀ (vr : VideoReader) (ts : Int),
      (video_reader_seek_frame lib.without_other_streams vr ts).1 =
          (video_reader_seek_frame lib vr ts).1 ∧
        (video_reader_seek_frame lib.without_other_streams vr ts).2.pts =
          (video_reader_seek_frame lib vr ts).2.pts ∧
        (video_reader_seek_frame lib.without_other_streams vr ts).2.frame_buffer =
          (video_reader_seek_frame lib vr ts).2.frame_buffer) ∧
    (∀ (reads : List ReadResult) (m0 : Module) (d0 : AVCodecContext) (bytes : List Nat),
      m0.live d0 bytes →
      ∃ ret1 rest m1 consumed, read_frames lib reads 0 m0 = .ok (ret1, rest, m1) ∧
        reads = consumed ++ rest ∧
        read_frames_submitted lib reads 0 m0 0 =
          selected_packets m0.audio_stream_idx consumed 0) ∧
    (∃ r m1 m2 self1, demuxDecode lib src m self = .ok (r, m1, self1) ∧
      demuxDecode lib src.without_other_streams m self = .ok (r, m2, self1) ∧
      m1.dst = m2.dst) :=
  ⟨fun idx reads dec frame pkt => decode_loop_submitted_selected idx reads dec frame pkt 0,
    fun vr => video_reader_read_frame_without_other_streams lib vr,
    fun vr ts => video_reader_seek_frame_without_other_streams lib vr ts,
    fun reads m0 d0 bytes hl => read_frames_submitted_selected lib reads 0 m0 d0 bytes 0 hl le_rfl,
    demuxDecode_without_other_streams lib src m self d ho hd⟩

/-- The container `mixedSource` meets the hypotheses of
`other_streams_are_skipped`; the video packet it interleaves changes nothing
in what `demuxDecode` returns and writes. -/
theorem other_streams_are_skipped_witness :
    mixedSource.opens ∧ mixedSource.avcodec_alloc_context3 = some stereoDecoder ∧
    mixedSource.without_other_streams.fmt_ctx.reads = [⟨0, { stream_index := 0 }⟩] ∧
    ∃ r m1 m2 self1, demuxDecode hostLib mixedSource Module.init sampleObject =
        .ok (r, m1, self1) ∧
      demuxDecode hostLib mixedSource.without_other_streams Module.init sampleObject =
        .ok (r, m2, self1) ∧
      m1.dst = m2.dst :=
  ⟨by decide, rfl, by decide,
    (other_streams_are_skipped hostLib mixedSource Module.init sampleObject stereoDecoder
      (by decide) rfl).2.2.2.2⟩

/-- C16 (the code departs from it): `demuxDecode` is to leave the
module-level state at its initial values, so that a second call behaves as a
first one.  After the first call, on `stereoSource`, `audio_stream` is still
set, `audio_stream_idx` is 0, `audio_dst_file` still points to the closed
stream and `audio_frame_count` is 1.  A second call on `noAudioSource` then
passes the test of `audio_stream`, meets a packet of stream 0 and calls
`decode_packet` with the null `audio_dec_ctx`, where a first call returns
0. -/
theorem demuxDecode_keeps_module_state :
    demuxDecode hostLib stereoSource Module.init sampleObject =
      .ok (0, afterFirstCall, { m_format := "s16le", m_sample_rate := 44100, m_channels := 2 }) ∧
    afterFirstCall.audio_stream = true ∧ Module.init.audio_stream = false ∧
    afterFirstCall.audio_stream_idx = 0 ∧ Module.init.audio_stream_idx = -1 ∧
    afterFirstCall.audio_dst_file = .closed ∧ Module.init.audio_dst_file = .null ∧
    afterFirstCall.audio_frame_count = 1 ∧ Module.init.audio_frame_count = 0 ∧
    (demuxDecode hostLib noAudioSource Module.init sampleObject).map Prod.fst = .ok 0 ∧
    demuxDecode hostLib noAudioSource afterFirstCall sampleObject = .error .undefined := by
  refine ⟨rfl, rfl, rfl, rfl, rfl, rfl, rfl, rfl, rfl, rfl, rfl⟩

end VideoPlayer
